import Mathlib

/-!
Verification of the GlassPipeline compute core (src/src/demosaic_cl.cpp)
against its natural-language specification.

The estimators and kernel-dispatch stages are shallowly embedded:

* `double` values that may be NaN are modelled as `Option ℚ` (`none` = NaN);
  all arithmetic that the source performs on values it has already checked
  to be non-NaN is carried out in `ℚ`.  Divisions whose divisor may be zero
  (`0/0` is NaN in IEEE arithmetic) are modelled with `qdiv`, which returns
  `none` on a zero divisor.
* 3- and 4-channel vectors (`double3` / `double4` in the source) are the
  structures `V3 ℚ` and `V4 ℚ` with componentwise arithmetic.
* the per-pixel statistics images are lists of per-pixel records, in the
  order the `apply` loops of the source visit them.
* a C `assert` is modelled by returning `Except.error ()`; a function with
  no failing assertion is total.
-/

namespace GlassPipeline


/-- A C++ `double` that may be NaN: `none` models NaN. -/
abbrev D := Option ℚ

/-- Division as the source's IEEE division behaves on the reachable states:
whenever the divisor is zero the dividend is zero as well (`0/0` = NaN),
so a zero divisor yields `none`. -/
def qdiv (a b : ℚ) : D := if b = 0 then none else some (a / b)

/-- The componentwise clamp `max(·, 1e-8)` applied to each fitted NLF
coefficient (src/src/demosaic_cl.cpp:781-782, 843-844, 1028-1029, 1089-1090).

Modelled from the spec: the `gls::max` vector primitive is not under `src/`;
the spec's floor invariant (§8: "NLF coefficients are always `≥ 1e-8`
componentwise after fitting (floor invariant), for any input statistics
including all-zero or degenerate inputs") fixes its behaviour on a
non-numeric (NaN) fit to be absorbed by the `1e-8` floor, as IEEE `fmax`
does. -/
def clampFloor (x : D) : ℚ :=
  match x with
  | none => 1 / 100000000
  | some q => max q (1 / 100000000)

/-- The `1e-8` coefficient floor. -/
def nlfFloor : ℚ := 1 / 100000000

/-- `double3` of the source (used by `MeasureYCbCrNLF`). -/
structure V3 (α : Type) where
  x0 : α
  x1 : α
  x2 : α
deriving DecidableEq

/-- `double4` of the source (used by `MeasureRawNLF`). -/
structure V4 (α : Type) where
  x0 : α
  x1 : α
  x2 : α
  x3 : α
deriving DecidableEq

def V3.map (f : α → β) (v : V3 α) : V3 β := ⟨f v.x0, f v.x1, f v.x2⟩

def V4.map (f : α → β) (v : V4 α) : V4 β := ⟨f v.x0, f v.x1, f v.x2, f v.x3⟩

def V3.zip (f : α → β → γ) (v : V3 α) (w : V3 β) : V3 γ :=
  ⟨f v.x0 w.x0, f v.x1 w.x1, f v.x2 w.x2⟩

def V4.zip (f : α → β → γ) (v : V4 α) (w : V4 β) : V4 γ :=
  ⟨f v.x0 w.x0, f v.x1 w.x1, f v.x2 w.x2, f v.x3 w.x3⟩

/-- `all(...)` of the source on a 3-vector of Booleans. -/
def V3.all (p : α → Bool) (v : V3 α) : Bool := p v.x0 && p v.x1 && p v.x2

/-- `all(...)` of the source on a 4-vector of Booleans. -/
def V4.all (p : α → Bool) (v : V4 α) : Bool := p v.x0 && p v.x1 && p v.x2 && p v.x3

def V3.konst (a : α) : V3 α := ⟨a, a, a⟩

def V4.konst (a : α) : V4 α := ⟨a, a, a, a⟩

def V3.add (v w : V3 ℚ) : V3 ℚ := V3.zip (· + ·) v w

def V4.add (v w : V4 ℚ) : V4 ℚ := V4.zip (· + ·) v w

def V3.sub (v w : V3 ℚ) : V3 ℚ := V3.zip (· - ·) v w

def V4.sub (v w : V4 ℚ) : V4 ℚ := V4.zip (· - ·) v w

def V3.mul (v w : V3 ℚ) : V3 ℚ := V3.zip (· * ·) v w

def V4.mul (v w : V4 ℚ) : V4 ℚ := V4.zip (· * ·) v w

/-- Scalar times vector (`m * v` of the source, `m` a `double`). -/
def V3.scale (q : ℚ) (v : V3 ℚ) : V3 ℚ := v.map (q * ·)

def V4.scale (q : ℚ) (v : V4 ℚ) : V4 ℚ := v.map (q * ·)

def V3.zero : V3 ℚ := V3.konst 0

def V4.zero : V4 ℚ := V4.konst 0

/-- Componentwise `≤` on 3-vectors, as the Boolean `all(a <= b)`. -/
def V3.leq (v w : V3 ℚ) : Bool := (V3.zip (fun a b => decide (a ≤ b)) v w).all id

/-- Componentwise `≤` on 4-vectors, as the Boolean `all(a <= b)`. -/
def V4.leq (v w : V4 ℚ) : Bool := (V4.zip (fun a b => decide (a ≤ b)) v w).all id

/-- Componentwise `<` on 4-vectors, as the Boolean `all(a < b)`. -/
def V4.ltq (v w : V4 ℚ) : Bool := (V4.zip (fun a b => decide (a < b)) v w).all id

/-! ## MeasureYCbCrNLF (src/src/demosaic_cl.cpp:742-867)

The per-pixel statistics image `noiseStats` holds, per pixel, a mean
`ns[0]` and a 3-channel variance `{ns[1], ns[2], ns[3]}`; any component may
be NaN. -/

/-- One pixel of the `YCbCrNoiseStatistics` image: mean `m`, variances `v`. -/
structure YStat where
  m : D
  v : V3 D

/-- `validStats` (line 769): none of mean/variance is NaN. -/
def YStat.valid (p : YStat) : Bool := p.m.isSome && p.v.all Option.isSome

/-- The mean as a number (only consulted on valid pixels). -/
def YStat.mVal (p : YStat) : ℚ := p.m.getD 0

/-- The variances as numbers (only consulted on valid pixels). -/
def YStat.vVal (p : YStat) : V3 ℚ := p.v.map (fun d => d.getD 0)

/-- `minValue = 0.001` (line 756). -/
def minValue : ℚ := 1 / 1000

/-- `maxValue = 0.5` (line 755). -/
def maxValue : ℚ := 1 / 2

/-- Initial variance ceiling `varianceMax = 0.001` (line 752, 997). -/
def varianceMax0 : ℚ := 1 / 1000

/-- The inclusion filter of the YCbCr statistics loops (lines 771, 792, 822):
`validStats && m >= minValue && m <= maxValue && all(v <= varianceMax)`. -/
def yInclude (varianceMax : V3 ℚ) (p : YStat) : Bool :=
  p.valid && decide (minValue ≤ p.mVal) && decide (p.mVal ≤ maxValue) &&
    p.vVal.leq varianceMax

/-- The regression accumulators `s_x, s_xx, s_y, s_xy, N`
(lines 759-764, 809-813). -/
structure YAcc where
  sx : ℚ
  sxx : ℚ
  sy : V3 ℚ
  sxy : V3 ℚ
  n : ℚ
deriving DecidableEq

def YAcc.zero : YAcc := ⟨0, 0, V3.zero, V3.zero, 0⟩

/-- One step of the statistics-collection loop (lines 765-778). -/
def yStep (varianceMax : V3 ℚ) (a : YAcc) (p : YStat) : YAcc :=
  if yInclude varianceMax p then
    ⟨a.sx + p.mVal, a.sxx + p.mVal * p.mVal, a.sy.add p.vVal,
     a.sxy.add (V3.scale p.mVal p.vVal), a.n + 1⟩
  else a

/-- The whole statistics-collection pass. -/
def yCollect (varianceMax : V3 ℚ) (stats : List YStat) : YAcc :=
  stats.foldl (yStep varianceMax) YAcc.zero

/-- The closed-form regression of lines 781-782 / 843-844:
`nlfB = max((N*s_xy - s_x*s_y) / (N*s_xx - s_x*s_x), 1e-8)`,
`nlfA = max((s_y - nlfB*s_x) / N, 1e-8)`.  Returns `(nlfA, nlfB)`. -/
def fit3 (a : YAcc) : V3 ℚ × V3 ℚ :=
  let den := a.n * a.sxx - a.sx * a.sx
  let nlfB := ((V3.scale a.n a.sxy).sub (V3.scale a.sx a.sy)).map
    (fun q => clampFloor (qdiv q den))
  let nlfA := (a.sy.sub (V3.scale a.sx nlfB)).map (fun q => clampFloor (qdiv q a.n))
  (nlfA, nlfB)

/-- First-pass accumulators of `MeasureYCbCrNLF` (ceiling `0.001`). -/
def yFirstAcc (stats : List YStat) : YAcc := yCollect (V3.konst varianceMax0) stats

/-- The first fit `(nlfA, nlfB)` of `MeasureYCbCrNLF`. -/
def yFirstFit (stats : List YStat) : V3 ℚ × V3 ℚ := fit3 (yFirstAcc stats)

/-- Predicted variance `nlfP = nlfA + nlfB * m` (lines 793, 823). -/
def yPredict (nlfA nlfB : V3 ℚ) (m : ℚ) : V3 ℚ := nlfA.add (V3.scale m nlfB)

/-- Squared residual `diff * diff` of a pixel against a model
(lines 794-795, 824-825; `abs` before squaring does not change it). -/
def yResidSq (nlfA nlfB : V3 ℚ) (p : YStat) : V3 ℚ :=
  ((yPredict nlfA nlfB p.mVal).sub p.vVal).map (fun d => |d| * |d|)

/-- Mean squared residual `err2` of the first fit (lines 785-798), summed
over the first inclusion set and divided by the first-pass `N`;
`none` models the NaN produced by `0/0` when no pixel was included. -/
def yErr2 (stats : List YStat) : Option (V3 ℚ) :=
  let s := stats.foldl
    (fun (acc : V3 ℚ) p =>
      if yInclude (V3.konst varianceMax0) p then
        acc.add (yResidSq (yFirstFit stats).1 (yFirstFit stats).2 p)
      else acc)
    V3.zero
  if (yFirstAcc stats).n = 0 then none
  else some (s.map (fun q => q / (yFirstAcc stats).n))

/-- The outlier-rejection gate of the second pass (line 827):
`all(diffSquare <= 0.5 * err2)`; every comparison with NaN is false. -/
def yGate (nlfA nlfB : V3 ℚ) (err2 : Option (V3 ℚ)) (p : YStat) : Bool :=
  match err2 with
  | none => false
  | some e => (yResidSq nlfA nlfB p).leq (e.map (fun q => 1 / 2 * q))

/-- The second statistics-collection pass (lines 806-838): ceiling
`varianceMax = nlfB`, and only pixels passing the residual gate are
accumulated; also accumulates `newErr2`'s numerator. -/
def ySecondPass (stats : List YStat) : YAcc × V3 ℚ :=
  stats.foldl
    (fun (acc : YAcc × V3 ℚ) p =>
      if yInclude (yFirstFit stats).2 p then
        if yGate (yFirstFit stats).1 (yFirstFit stats).2 (yErr2 stats) p then
          (⟨acc.1.sx + p.mVal, acc.1.sxx + p.mVal * p.mVal, acc.1.sy.add p.vVal,
            acc.1.sxy.add (V3.scale p.mVal p.vVal), acc.1.n + 1⟩,
           acc.2.add (yResidSq (yFirstFit stats).1 (yFirstFit stats).2 p))
        else acc
      else acc)
    (YAcc.zero, V3.zero)

/-- `newErr2` of the second pass (lines 814, 833, 839); `none` models the
NaN produced by `0/0` when the surviving set is empty. -/
def yNewErr2 (stats : List YStat) : Option (V3 ℚ) :=
  if (ySecondPass stats).1.n = 0 then none
  else some ((ySecondPass stats).2.map (fun q => q / (ySecondPass stats).1.n))

/-- The branch condition `all(newErr2 <= err2)` of line 841; any NaN makes
it false. -/
def yAccept (stats : List YStat) : Bool :=
  match yNewErr2 stats with
  | none => false
  | some ne =>
    match yErr2 stats with
    | none => false
    | some e => ne.leq e

/-- Result of `MeasureYCbCrNLF`: the NLF pair plus whether the
`*** WARNING *** Pyramid NLF second iteration is worse` message of
line 850 was emitted. -/
structure YCbCrNLFResult where
  A : V3 ℚ
  B : V3 ℚ
  degradedWarning : Bool
deriving DecidableEq

/-- `MeasureYCbCrNLF` (lines 742-867): initial fit, residual gate, refit
with outlier rejection; on `all(newErr2 <= err2)` the second fit replaces
the first (lines 841-848), otherwise a warning is logged and the first fit
is kept (lines 849-853); both coefficients are finally scaled by
`exposure_multiplier * exposure_multiplier` (lines 859-862). -/
def MeasureYCbCrNLF (stats : List YStat) (exposureMultiplier : ℚ) : YCbCrNLFResult :=
  let adj := exposureMultiplier * exposureMultiplier
  if yAccept stats then
    ⟨V3.scale adj (fit3 (ySecondPass stats).1).1,
     V3.scale adj (fit3 (ySecondPass stats).1).2, false⟩
  else
    ⟨V3.scale adj (yFirstFit stats).1, V3.scale adj (yFirstFit stats).2, true⟩

/-! ## MeasureRawNLF (src/src/demosaic_cl.cpp:948-1110)

The raw-domain statistics are three quad-packed images: per (quad) pixel a
4-channel mean, variance and kurtosis.  The dead `use_ransac` block
(lines 970-992, constant `false`) is not modelled. -/

/-- One pixel of the `rawNoiseStatistics` images: 4-channel mean `m`,
variance `v` and kurtosis `k`. -/
structure RStat where
  m : V4 D
  v : V4 D
  k : V4 D

/-- `validStats` (line 1015): no component of mean/variance/kurtosis NaN. -/
def RStat.valid (p : RStat) : Bool :=
  p.m.all Option.isSome && p.v.all Option.isSome && p.k.all Option.isSome

def RStat.mVal (p : RStat) : V4 ℚ := p.m.map (fun d => d.getD 0)

def RStat.vVal (p : RStat) : V4 ℚ := p.v.map (fun d => d.getD 0)

def RStat.kVal (p : RStat) : V4 ℚ := p.k.map (fun d => d.getD 0)

/-- `minK = -1.0` (line 967). -/
def minK : ℚ := -1

/-- `maxK = 1.0` (line 968). -/
def maxK : ℚ := 1

/-- The inclusion filter of the raw statistics loops (lines 1017-1018,
1040-1041, 1070-1071): `validStats && all(m >= minValue) &&
all(m <= maxValue) && all(v <= varianceMax) && all(k > minK) &&
all(k < maxK)`. -/
def rInclude (varianceMax : V4 ℚ) (p : RStat) : Bool :=
  p.valid && (V4.konst minValue).leq p.mVal && p.mVal.leq (V4.konst maxValue) &&
    p.vVal.leq varianceMax && (V4.konst minK).ltq p.kVal && p.kVal.ltq (V4.konst maxK)

/-- The raw regression accumulators (lines 1004-1009, 1057-1061); the
means are 4-vectors here, so all accumulators are. -/
structure RAcc where
  sx : V4 ℚ
  sxx : V4 ℚ
  sy : V4 ℚ
  sxy : V4 ℚ
  n : ℚ
deriving DecidableEq

def RAcc.zero : RAcc := ⟨V4.zero, V4.zero, V4.zero, V4.zero, 0⟩

/-- One step of the raw statistics-collection loop (lines 1010-1025). -/
def rStep (varianceMax : V4 ℚ) (a : RAcc) (p : RStat) : RAcc :=
  if rInclude varianceMax p then
    ⟨a.sx.add p.mVal, a.sxx.add (p.mVal.mul p.mVal), a.sy.add p.vVal,
     a.sxy.add (p.mVal.mul p.vVal), a.n + 1⟩
  else a

def rCollect (varianceMax : V4 ℚ) (stats : List RStat) : RAcc :=
  stats.foldl (rStep varianceMax) RAcc.zero

/-- The closed-form raw regression of lines 1028-1029 / 1089-1090
(componentwise, the denominators are now vectors). Returns `(nlfA, nlfB)`. -/
def fit4 (a : RAcc) : V4 ℚ × V4 ℚ :=
  let den := (V4.scale a.n a.sxx).sub (a.sx.mul a.sx)
  let nlfB := V4.zip (fun q d => clampFloor (qdiv q d))
    ((V4.scale a.n a.sxy).sub (a.sx.mul a.sy)) den
  let nlfA := (a.sy.sub (a.sx.mul nlfB)).map (fun q => clampFloor (qdiv q a.n))
  (nlfA, nlfB)

def rFirstAcc (stats : List RStat) : RAcc := rCollect (V4.konst varianceMax0) stats

def rFirstFit (stats : List RStat) : V4 ℚ × V4 ℚ := fit4 (rFirstAcc stats)

/-- `nlfP = nlfA + nlfB * m` with a 4-vector mean (lines 1042, 1072). -/
def rPredict (nlfA nlfB m : V4 ℚ) : V4 ℚ := nlfA.add (nlfB.mul m)

/-- Squared residual of a raw pixel against a model (lines 1043-1044,
1073-1074). -/
def rResidSq (nlfA nlfB : V4 ℚ) (p : RStat) : V4 ℚ :=
  ((rPredict nlfA nlfB p.mVal).sub p.vVal).map (fun d => |d| * |d|)

/-- Mean squared residual `err2` of the first raw fit (lines 1032-1047). -/
def rErr2 (stats : List RStat) : Option (V4 ℚ) :=
  let s := stats.foldl
    (fun (acc : V4 ℚ) p =>
      if rInclude (V4.konst varianceMax0) p then
        acc.add (rResidSq (rFirstFit stats).1 (rFirstFit stats).2 p)
      else acc)
    V4.zero
  if (rFirstAcc stats).n = 0 then none
  else some (s.map (fun q => q / (rFirstAcc stats).n))

/-- The raw outlier-rejection gate (line 1076). -/
def rGate (nlfA nlfB : V4 ℚ) (err2 : Option (V4 ℚ)) (p : RStat) : Bool :=
  match err2 with
  | none => false
  | some e => (rResidSq nlfA nlfB p).leq (e.map (fun q => 1 / 2 * q))

/-- The second raw statistics-collection pass (lines 1053-1085): ceiling
`varianceMax = nlfB`, residual gate against the first model. -/
def rSecondPass (stats : List RStat) : RAcc × V4 ℚ :=
  stats.foldl
    (fun (acc : RAcc × V4 ℚ) p =>
      if rInclude (rFirstFit stats).2 p then
        if rGate (rFirstFit stats).1 (rFirstFit stats).2 (rErr2 stats) p then
          (⟨acc.1.sx.add p.mVal, acc.1.sxx.add (p.mVal.mul p.mVal),
            acc.1.sy.add p.vVal, acc.1.sxy.add (p.mVal.mul p.vVal), acc.1.n + 1⟩,
           acc.2.add (rResidSq (rFirstFit stats).1 (rFirstFit stats).2 p))
        else acc
      else acc)
    (RAcc.zero, V4.zero)

/-- `newErr2` of the second raw pass (lines 1062, 1082, 1086). -/
def rNewErr2 (stats : List RStat) : Option (V4 ℚ) :=
  if (rSecondPass stats).1.n = 0 then none
  else some ((rSecondPass stats).2.map (fun q => q / (rSecondPass stats).1.n))

/-- The assertion condition `all(newErr2 < err2)` of line 1092; any NaN
makes it false (and the assertion fire). -/
def rStrictlyBetter (stats : List RStat) : Bool :=
  match rNewErr2 stats with
  | none => false
  | some ne =>
    match rErr2 stats with
    | none => false
    | some e => ne.ltq e

/-- The non-strict comparison `all(newErr2 <= err2)`: its negation is the
"second iteration is worse" (degraded-fit) condition the spec's step 5
describes for both estimators. -/
def rNotWorse (stats : List RStat) : Bool :=
  match rNewErr2 stats with
  | none => false
  | some ne =>
    match rErr2 stats with
    | none => false
    | some e => ne.leq e

/-- `MeasureRawNLF` (lines 948-1110): initial fit, residual gate, refit;
the second fit's parameters are recomputed unconditionally (lines
1089-1090), then `assert(all(newErr2 < err2))` (line 1092) aborts the
process — modelled as `Except.error ()` — whenever the refit is not
strictly better; otherwise the second fit is scaled by
`exposure_multiplier²` and returned (lines 1102-1109). -/
def MeasureRawNLF (stats : List RStat) (exposureMultiplier : ℚ) :
    Except Unit (V4 ℚ × V4 ℚ) :=
  if rStrictlyBetter stats then
    let adj := exposureMultiplier * exposureMultiplier
    Except.ok (V4.scale adj (fit4 (rSecondPass stats).1).1,
               V4.scale adj (fit4 (rSecondPass stats).1).2)
  else Except.error ()

/-! ## localToneMappingMask (src/src/demosaic_cl.cpp:474-533)

Only the kernel-dispatch structure matters for the claims: which GPU
passes are enqueued for which octave.  The trace lists the enqueued
passes in program order. -/

/-- Per-octave "detail" weights (octaves LF, MF, HF) and guided-filter
epsilon of `LTMParameters`. -/
structure LTMParameters where
  detail : V3 ℚ
  eps : ℚ

/-- `ltmParameters.detail[i]` for `i < 3`. -/
def detailAt (p : LTMParameters) (i : ℕ) : ℚ :=
  match i with
  | 0 => p.detail.x0
  | 1 => p.detail.x1
  | _ => p.detail.x2

/-- A GPU kernel pass enqueued by `localToneMappingMask`. -/
inductive LTMPass where
  | guidedFilter (octave : ℕ)
  | boxFilter (octave : ℕ)
  | toneMapMask
deriving DecidableEq

/-- The loop condition of line 521: `i == 0 || ltmParameters.detail[i] != 1`. -/
def ltmRunCondition (p : LTMParameters) (i : ℕ) : Bool :=
  (i == 0) || (detailAt p i != 1)

/-- The passes `localToneMappingMask` enqueues (lines 520-532): for each
octave satisfying the loop condition, a `GuidedFilterABImage` pass and a
`BoxFilterGFImage` pass; then the final `localToneMappingMaskImage` pass. -/
def localToneMappingMaskTrace (p : LTMParameters) : List LTMPass :=
  (if ltmRunCondition p 0 then [LTMPass.guidedFilter 0, LTMPass.boxFilter 0] else []) ++
  (if ltmRunCondition p 1 then [LTMPass.guidedFilter 1, LTMPass.boxFilter 1] else []) ++
  (if ltmRunCondition p 2 then [LTMPass.guidedFilter 2, LTMPass.boxFilter 2] else []) ++
  [LTMPass.toneMapMask]

/-! ## gaussianKernelBilinearWeights (src/src/demosaic_cl.cpp:603-632) -/

/-- `kernelSize` (lines 604-607): `ceil(2 * radius)` rounded up to odd. -/
def kernelSize (radius : ℚ) : ℕ :=
  let k := (Int.ceil (2 * radius)).toNat
  if k % 2 == 0 then k + 1 else k

/-- The naive full-kernel tap count, `kernelSize * kernelSize` (line 609). -/
def naiveTapCount (radius : ℚ) : ℕ := kernelSize radius * kernelSize radius

/-- `outWidth = kernelSize / 2 + 1` (line 621). -/
def outWidth (radius : ℚ) : ℕ := kernelSize radius / 2 + 1

/-- `weightsCount = outWidth * outWidth` (line 622): the number of
bilinear-optimized taps returned. -/
def weightsCount (radius : ℚ) : ℕ := outWidth radius * outWidth radius

/-- The unnormalized Gaussian grid weight
`exp(-((x*x + y*y) / (2 * radius * radius)))` of line 612, with `(x, y)`
ranging over `[-kernelSize/2, kernelSize/2]²`; the grid is indexed here by
`(i, j) ∈ [0, kernelSize)²` with offset `i - kernelSize/2`. -/
noncomputable def cellWeight (radius : ℚ) (ij : ℕ × ℕ) : ℝ :=
  let half : ℤ := (kernelSize radius : ℤ) / 2
  let x : ℤ := (ij.1 : ℤ) - half
  let y : ℤ := (ij.2 : ℤ) - half
  Real.exp (-((x : ℝ) * x + (y : ℝ) * y) / (2 * (radius : ℝ) * radius))

/-- The grid index set of the naive kernel. -/
def gridSet (radius : ℚ) : Finset (ℕ × ℕ) :=
  Finset.range (kernelSize radius) ×ˢ Finset.range (kernelSize radius)

/-- The total weight of the naive kernel grid. -/
noncomputable def totalCellWeight (radius : ℚ) : ℝ :=
  Finset.sum (gridSet radius) (cellWeight radius)

/-- The bilinear-merge fiber map: grid cell `(i, j)` is folded into output
tap `((i+1)/2, (j+1)/2)`, merging adjacent rows/columns pairwise. -/
def tapOf (ij : ℕ × ℕ) : ℕ × ℕ := ((ij.1 + 1) / 2, (ij.2 + 1) / 2)

/-- The output tap index set, of size `weightsCount`. -/
def tapSet (radius : ℚ) : Finset (ℕ × ℕ) :=
  Finset.range (outWidth radius) ×ˢ Finset.range (outWidth radius)

/-- Modelled from the spec: `KernelOptimizeBilinear2d` (declared in the
`gls` support headers, not under `src/`) merges the symmetric taps of the
odd-sized grid pairwise into `outWidth × outWidth` bilinear taps (§3: "a
bilinear-optimization step that merges symmetric taps to halve the number
of texture samples") and normalizes the merged weights by the grid total
(§8: "the sum of all generated tap weights equals 1").  The weight of the
output tap `ab` is the normalized sum of the grid cells folded into it. -/
noncomputable def tapWeight (radius : ℚ) (ab : ℕ × ℕ) : ℝ :=
  (Finset.sum ((gridSet radius).filter (fun ij => tapOf ij = ab)) (cellWeight radius)) /
    totalCellWeight radius

/-- The total weight of the tap list `gaussianKernelBilinearWeights` returns. -/
noncomputable def tapWeightSum (radius : ℚ) : ℝ :=
  Finset.sum (tapSet radius) (tapWeight radius)

/-! ## Bayer-quad conversion stages: shape preconditions
(src/src/demosaic_cl.cpp:176-192, 535-569) -/

/-- Buffer shape of a `gls::cl_image_2d`. -/
structure ImgShape where
  width : ℕ
  height : ℕ
deriving DecidableEq

/-- The `assert` of `fasteDebayer` (line 178):
`rawImage.width == 2 * rgbImage->width && rawImage.height == 2 *
rgbImage->height`; a violating call is a fatal assertion failure. -/
def fasteDebayerCheck (rawImage rgbImage : ImgShape) : Except Unit Unit :=
  if rawImage.width = 2 * rgbImage.width ∧ rawImage.height = 2 * rgbImage.height then
    Except.ok ()
  else Except.error ()

/-- The `assert` of `bayerToRawRGBA` (line 537). -/
def bayerToRawRGBACheck (rawImage rgbaImage : ImgShape) : Except Unit Unit :=
  if rawImage.width = 2 * rgbaImage.width ∧ rawImage.height = 2 * rgbaImage.height then
    Except.ok ()
  else Except.error ()

/-- The `assert` of `rawRGBAToBayer` (line 555): the raw output is exactly
twice the RGBA input. -/
def rawRGBAToBayerCheck (rgbaImage rawImage : ImgShape) : Except Unit Unit :=
  if rawImage.width = 2 * rgbaImage.width ∧ rawImage.height = 2 * rgbaImage.height then
    Except.ok ()
  else Except.error ()

/-! ## despeckleRawBlackImage (src/src/demosaic_cl.cpp:945-946) -/

/-- Bayer filter layout tags. -/
inductive BayerPattern where
  | rggb
  | grbg
  | gbrg
  | bggr
deriving DecidableEq

/-- A single-channel float image buffer with its contents. -/
structure RawImage where
  width : ℕ
  height : ℕ
  data : ℕ → ℕ → ℚ

/-- `despeckleRawBlackImage` (lines 945-946): the function body is empty —
the output buffer (and every other observable state) is returned exactly
as it was passed in; in particular the input is not copied to the output. -/
def despeckleRawBlackImage (rawImage : RawImage) (bayerPattern : BayerPattern)
    (despeckledImage : RawImage) : RawImage :=
  despeckledImage

/-! ## Spec-side ordinary-least-squares formulation

The spec (§4.2 step 2) describes the initial fit as ordinary least squares
over the filtered pixel set, with the closed forms
`B = (NΣxy − ΣxΣy)/(NΣx² − (Σx)²)` and `A = (Σy − BΣx)/N`, each clamped to
a floor of `1e-8`.  The following definitions are written from the spec's
words, to be compared with the embedded single-pass loops. -/

/-- Spec-side inclusion filter for the YCbCr initial fit: none of
mean/variance is NaN, mean in `[0.001, 0.5]`, every variance channel at or
below the initial ceiling `0.001`. -/
def ySpecInclude (p : YStat) : Bool :=
  p.m.isSome && p.v.x0.isSome && p.v.x1.isSome && p.v.x2.isSome &&
  decide (minValue ≤ p.mVal) && decide (p.mVal ≤ maxValue) &&
  decide (p.vVal.x0 ≤ varianceMax0) && decide (p.vVal.x1 ≤ varianceMax0) &&
  decide (p.vVal.x2 ≤ varianceMax0)

/-- Spec-side inclusion filter for the raw initial fit: additionally every
kurtosis channel lies strictly in `(-1, 1)`, and the mean bounds apply to
every channel. -/
def rSpecInclude (p : RStat) : Bool :=
  p.valid &&
  decide (minValue ≤ p.mVal.x0 ∧ minValue ≤ p.mVal.x1 ∧
          minValue ≤ p.mVal.x2 ∧ minValue ≤ p.mVal.x3) &&
  decide (p.mVal.x0 ≤ maxValue ∧ p.mVal.x1 ≤ maxValue ∧
          p.mVal.x2 ≤ maxValue ∧ p.mVal.x3 ≤ maxValue) &&
  decide (p.vVal.x0 ≤ varianceMax0 ∧ p.vVal.x1 ≤ varianceMax0 ∧
          p.vVal.x2 ≤ varianceMax0 ∧ p.vVal.x3 ≤ varianceMax0) &&
  decide (minK < p.kVal.x0 ∧ minK < p.kVal.x1 ∧ minK < p.kVal.x2 ∧ minK < p.kVal.x3) &&
  decide (p.kVal.x0 < maxK ∧ p.kVal.x1 < maxK ∧ p.kVal.x2 < maxK ∧ p.kVal.x3 < maxK)

/-- The YCbCr pixels the spec's initial fit regresses over. -/
def ySpecPixels (stats : List YStat) : List YStat := stats.filter ySpecInclude

/-- `N`: the sample count of the spec's initial YCbCr fit. -/
def ySpecN (stats : List YStat) : ℚ := (ySpecPixels stats).length

def ySpecSumX (stats : List YStat) : ℚ := ((ySpecPixels stats).map YStat.mVal).sum

def ySpecSumXX (stats : List YStat) : ℚ :=
  ((ySpecPixels stats).map (fun p => p.mVal * p.mVal)).sum

def ySpecSumY (stats : List YStat) : V3 ℚ :=
  ⟨((ySpecPixels stats).map (fun p => p.vVal.x0)).sum,
   ((ySpecPixels stats).map (fun p => p.vVal.x1)).sum,
   ((ySpecPixels stats).map (fun p => p.vVal.x2)).sum⟩

def ySpecSumXY (stats : List YStat) : V3 ℚ :=
  ⟨((ySpecPixels stats).map (fun p => p.mVal * p.vVal.x0)).sum,
   ((ySpecPixels stats).map (fun p => p.mVal * p.vVal.x1)).sum,
   ((ySpecPixels stats).map (fun p => p.mVal * p.vVal.x2)).sum⟩

/-- Spec-side `B = (NΣxy − ΣxΣy)/(NΣx² − (Σx)²)`, clamped to `1e-8`. -/
def ySpecB (stats : List YStat) : V3 ℚ :=
  (V3.zip (fun sxy sy =>
      clampFloor (qdiv (ySpecN stats * sxy - ySpecSumX stats * sy)
        (ySpecN stats * ySpecSumXX stats - ySpecSumX stats * ySpecSumX stats)))
    (ySpecSumXY stats) (ySpecSumY stats))

/-- Spec-side `A = (Σy − BΣx)/N`, clamped to `1e-8`. -/
def ySpecA (stats : List YStat) : V3 ℚ :=
  (V3.zip (fun sy b => clampFloor (qdiv (sy - b * ySpecSumX stats) (ySpecN stats)))
    (ySpecSumY stats) (ySpecB stats))

/-! ## Bridge lemmas: the single-pass loops compute filtered sums -/

/-- Sum of a rational-valued function over the pixels passing a filter. -/
def fSum (g : YStat → Bool) (f : YStat → ℚ) (stats : List YStat) : ℚ :=
  ((stats.filter g).map f).sum

/-- 3-channel sums over the pixels passing a filter. -/
def fSumV (g : YStat → Bool) (f : YStat → V3 ℚ) (stats : List YStat) : V3 ℚ :=
  ⟨fSum g (fun p => (f p).x0) stats, fSum g (fun p => (f p).x1) stats,
   fSum g (fun p => (f p).x2) stats⟩

/-- Sum of a rational-valued function over the raw pixels passing a filter. -/
def rSum (g : RStat → Bool) (f : RStat → ℚ) (stats : List RStat) : ℚ :=
  ((stats.filter g).map f).sum

/-- 4-channel sums over the raw pixels passing a filter. -/
def rSumV (g : RStat → Bool) (f : RStat → V4 ℚ) (stats : List RStat) : V4 ℚ :=
  ⟨rSum g (fun p => (f p).x0) stats, rSum g (fun p => (f p).x1) stats,
   rSum g (fun p => (f p).x2) stats, rSum g (fun p => (f p).x3) stats⟩

/-- The raw pixels the spec's initial fit regresses over. -/
def rSpecPixels (stats : List RStat) : List RStat := stats.filter rSpecInclude

def rSpecN (stats : List RStat) : ℚ := (rSpecPixels stats).length

def rSpecSumX (stats : List RStat) : V4 ℚ :=
  ⟨((rSpecPixels stats).map (fun p => p.mVal.x0)).sum,
   ((rSpecPixels stats).map (fun p => p.mVal.x1)).sum,
   ((rSpecPixels stats).map (fun p => p.mVal.x2)).sum,
   ((rSpecPixels stats).map (fun p => p.mVal.x3)).sum⟩

def rSpecSumXX (stats : List RStat) : V4 ℚ :=
  ⟨((rSpecPixels stats).map (fun p => p.mVal.x0 * p.mVal.x0)).sum,
   ((rSpecPixels stats).map (fun p => p.mVal.x1 * p.mVal.x1)).sum,
   ((rSpecPixels stats).map (fun p => p.mVal.x2 * p.mVal.x2)).sum,
   ((rSpecPixels stats).map (fun p => p.mVal.x3 * p.mVal.x3)).sum⟩

def rSpecSumY (stats : List RStat) : V4 ℚ :=
  ⟨((rSpecPixels stats).map (fun p => p.vVal.x0)).sum,
   ((rSpecPixels stats).map (fun p => p.vVal.x1)).sum,
   ((rSpecPixels stats).map (fun p => p.vVal.x2)).sum,
   ((rSpecPixels stats).map (fun p => p.vVal.x3)).sum⟩

def rSpecSumXY (stats : List RStat) : V4 ℚ :=
  ⟨((rSpecPixels stats).map (fun p => p.mVal.x0 * p.vVal.x0)).sum,
   ((rSpecPixels stats).map (fun p => p.mVal.x1 * p.vVal.x1)).sum,
   ((rSpecPixels stats).map (fun p => p.mVal.x2 * p.vVal.x2)).sum,
   ((rSpecPixels stats).map (fun p => p.mVal.x3 * p.vVal.x3)).sum⟩

/-- One channel of the spec's clamped `B = (NΣxy − ΣxΣy)/(NΣx² − (Σx)²)`. -/
def specBchan (n sx sxx sy sxy : ℚ) : ℚ :=
  clampFloor (qdiv (n * sxy - sx * sy) (n * sxx - sx * sx))

/-- One channel of the spec's clamped `A = (Σy − BΣx)/N`. -/
def specAchan (n sx sy b : ℚ) : ℚ := clampFloor (qdiv (sy - b * sx) n)

/-- Spec-side raw `B`, channel by channel (the raw mean is per-channel, so
all the sums are). -/
def rSpecB (stats : List RStat) : V4 ℚ :=
  ⟨specBchan (rSpecN stats) (rSpecSumX stats).x0 (rSpecSumXX stats).x0
     (rSpecSumY stats).x0 (rSpecSumXY stats).x0,
   specBchan (rSpecN stats) (rSpecSumX stats).x1 (rSpecSumXX stats).x1
     (rSpecSumY stats).x1 (rSpecSumXY stats).x1,
   specBchan (rSpecN stats) (rSpecSumX stats).x2 (rSpecSumXX stats).x2
     (rSpecSumY stats).x2 (rSpecSumXY stats).x2,
   specBchan (rSpecN stats) (rSpecSumX stats).x3 (rSpecSumXX stats).x3
     (rSpecSumY stats).x3 (rSpecSumXY stats).x3⟩

/-- Spec-side raw `A`, channel by channel. -/
def rSpecA (stats : List RStat) : V4 ℚ :=
  ⟨specAchan (rSpecN stats) (rSpecSumX stats).x0 (rSpecSumY stats).x0 (rSpecB stats).x0,
   specAchan (rSpecN stats) (rSpecSumX stats).x1 (rSpecSumY stats).x1 (rSpecB stats).x1,
   specAchan (rSpecN stats) (rSpecSumX stats).x2 (rSpecSumY stats).x2 (rSpecB stats).x2,
   specAchan (rSpecN stats) (rSpecSumX stats).x3 (rSpecSumY stats).x3 (rSpecB stats).x3⟩

/-! ## Spec-side refit pass (spec §4.2 steps 3-4) -/

/-- The spec's inclusion filter with an arbitrary variance ceiling (the
refit re-applies the original filter "with the new ceiling"). -/
def ySpecIncludeC (ceiling : V3 ℚ) (p : YStat) : Bool :=
  p.m.isSome && p.v.x0.isSome && p.v.x1.isSome && p.v.x2.isSome &&
  decide (minValue ≤ p.mVal) && decide (p.mVal ≤ maxValue) &&
  decide (p.vVal.x0 ≤ ceiling.x0) && decide (p.vVal.x1 ≤ ceiling.x1) &&
  decide (p.vVal.x2 ≤ ceiling.x2)

/-- Spec-side per-pixel squared residual against the first model. -/
def ySpecResidSq (stats : List YStat) (p : YStat) : V3 ℚ :=
  ⟨((ySpecA stats).x0 + (ySpecB stats).x0 * p.mVal - p.vVal.x0) *
     ((ySpecA stats).x0 + (ySpecB stats).x0 * p.mVal - p.vVal.x0),
   ((ySpecA stats).x1 + (ySpecB stats).x1 * p.mVal - p.vVal.x1) *
     ((ySpecA stats).x1 + (ySpecB stats).x1 * p.mVal - p.vVal.x1),
   ((ySpecA stats).x2 + (ySpecB stats).x2 * p.mVal - p.vVal.x2) *
     ((ySpecA stats).x2 + (ySpecB stats).x2 * p.mVal - p.vVal.x2)⟩

/-- Spec-side `err2`: the first fit's mean squared residual over the
first inclusion set (NaN — `none` — when that set is empty). -/
def ySpecErr2 (stats : List YStat) : Option (V3 ℚ) :=
  if ySpecN stats = 0 then none
  else some
    ⟨((ySpecPixels stats).map (fun p => (ySpecResidSq stats p).x0)).sum / ySpecN stats,
     ((ySpecPixels stats).map (fun p => (ySpecResidSq stats p).x1)).sum / ySpecN stats,
     ((ySpecPixels stats).map (fun p => (ySpecResidSq stats p).x2)).sum / ySpecN stats⟩

/-- Spec-side refit gate: the per-pixel squared residual against the
first model is at most `0.5 * err2` in every channel (false when `err2`
is NaN). -/
def ySpecGate (stats : List YStat) (p : YStat) : Bool :=
  match ySpecErr2 stats with
  | none => false
  | some e =>
    decide ((ySpecResidSq stats p).x0 ≤ 1 / 2 * e.x0) &&
    decide ((ySpecResidSq stats p).x1 ≤ 1 / 2 * e.x1) &&
    decide ((ySpecResidSq stats p).x2 ≤ 1 / 2 * e.x2)

/-- The pixels surviving the spec's refit pass: the original filter with
the new ceiling — the first fit's `B` — plus the residual gate. -/
def ySpecSurvivors (stats : List YStat) : List YStat :=
  stats.filter (fun p => ySpecIncludeC (ySpecB stats) p && ySpecGate stats p)

/-- The spec's second-pass regression sums, over exactly the survivors. -/
def ySpecSecondAcc (stats : List YStat) : YAcc :=
  ⟨((ySpecSurvivors stats).map YStat.mVal).sum,
   ((ySpecSurvivors stats).map (fun p => p.mVal * p.mVal)).sum,
   ⟨((ySpecSurvivors stats).map (fun p => p.vVal.x0)).sum,
    ((ySpecSurvivors stats).map (fun p => p.vVal.x1)).sum,
    ((ySpecSurvivors stats).map (fun p => p.vVal.x2)).sum⟩,
   ⟨((ySpecSurvivors stats).map (fun p => p.mVal * p.vVal.x0)).sum,
    ((ySpecSurvivors stats).map (fun p => p.mVal * p.vVal.x1)).sum,
    ((ySpecSurvivors stats).map (fun p => p.mVal * p.vVal.x2)).sum⟩,
   (ySpecSurvivors stats).length⟩

/-- The spec's accumulated squared residuals over the survivors (the
numerator of `newErr2`). -/
def ySpecNewErr2Num (stats : List YStat) : V3 ℚ :=
  ⟨((ySpecSurvivors stats).map (fun p => (ySpecResidSq stats p).x0)).sum,
   ((ySpecSurvivors stats).map (fun p => (ySpecResidSq stats p).x1)).sum,
   ((ySpecSurvivors stats).map (fun p => (ySpecResidSq stats p).x2)).sum⟩

/-- The spec's raw inclusion filter with an arbitrary variance ceiling. -/
def rSpecIncludeC (ceiling : V4 ℚ) (p : RStat) : Bool :=
  p.valid &&
  decide (minValue ≤ p.mVal.x0 ∧ minValue ≤ p.mVal.x1 ∧
          minValue ≤ p.mVal.x2 ∧ minValue ≤ p.mVal.x3) &&
  decide (p.mVal.x0 ≤ maxValue ∧ p.mVal.x1 ≤ maxValue ∧
          p.mVal.x2 ≤ maxValue ∧ p.mVal.x3 ≤ maxValue) &&
  decide (p.vVal.x0 ≤ ceiling.x0 ∧ p.vVal.x1 ≤ ceiling.x1 ∧
          p.vVal.x2 ≤ ceiling.x2 ∧ p.vVal.x3 ≤ ceiling.x3) &&
  decide (minK < p.kVal.x0 ∧ minK < p.kVal.x1 ∧ minK < p.kVal.x2 ∧ minK < p.kVal.x3) &&
  decide (p.kVal.x0 < maxK ∧ p.kVal.x1 < maxK ∧ p.kVal.x2 < maxK ∧ p.kVal.x3 < maxK)

/-- Spec-side per-pixel raw squared residual against the first model. -/
def rSpecResidSq (stats : List RStat) (p : RStat) : V4 ℚ :=
  ⟨((rSpecA stats).x0 + (rSpecB stats).x0 * p.mVal.x0 - p.vVal.x0) *
     ((rSpecA stats).x0 + (rSpecB stats).x0 * p.mVal.x0 - p.vVal.x0),
   ((rSpecA stats).x1 + (rSpecB stats).x1 * p.mVal.x1 - p.vVal.x1) *
     ((rSpecA stats).x1 + (rSpecB stats).x1 * p.mVal.x1 - p.vVal.x1),
   ((rSpecA stats).x2 + (rSpecB stats).x2 * p.mVal.x2 - p.vVal.x2) *
     ((rSpecA stats).x2 + (rSpecB stats).x2 * p.mVal.x2 - p.vVal.x2),
   ((rSpecA stats).x3 + (rSpecB stats).x3 * p.mVal.x3 - p.vVal.x3) *
     ((rSpecA stats).x3 + (rSpecB stats).x3 * p.mVal.x3 - p.vVal.x3)⟩

/-- Spec-side raw `err2`. -/
def rSpecErr2 (stats : List RStat) : Option (V4 ℚ) :=
  if rSpecN stats = 0 then none
  else some
    ⟨((rSpecPixels stats).map (fun p => (rSpecResidSq stats p).x0)).sum / rSpecN stats,
     ((rSpecPixels stats).map (fun p => (rSpecResidSq stats p).x1)).sum / rSpecN stats,
     ((rSpecPixels stats).map (fun p => (rSpecResidSq stats p).x2)).sum / rSpecN stats,
     ((rSpecPixels stats).map (fun p => (rSpecResidSq stats p).x3)).sum / rSpecN stats⟩

/-- Spec-side raw refit gate. -/
def rSpecGate (stats : List RStat) (p : RStat) : Bool :=
  match rSpecErr2 stats with
  | none => false
  | some e =>
    decide ((rSpecResidSq stats p).x0 ≤ 1 / 2 * e.x0) &&
    decide ((rSpecResidSq stats p).x1 ≤ 1 / 2 * e.x1) &&
    decide ((rSpecResidSq stats p).x2 ≤ 1 / 2 * e.x2) &&
    decide ((rSpecResidSq stats p).x3 ≤ 1 / 2 * e.x3)

/-- The raw pixels surviving the spec's refit pass. -/
def rSpecSurvivors (stats : List RStat) : List RStat :=
  stats.filter (fun p => rSpecIncludeC (rSpecB stats) p && rSpecGate stats p)

/-- The spec's second-pass raw regression sums, over exactly the survivors. -/
def rSpecSecondAcc (stats : List RStat) : RAcc :=
  ⟨⟨((rSpecSurvivors stats).map (fun p => p.mVal.x0)).sum,
    ((rSpecSurvivors stats).map (fun p => p.mVal.x1)).sum,
    ((rSpecSurvivors stats).map (fun p => p.mVal.x2)).sum,
    ((rSpecSurvivors stats).map (fun p => p.mVal.x3)).sum⟩,
   ⟨((rSpecSurvivors stats).map (fun p => p.mVal.x0 * p.mVal.x0)).sum,
    ((rSpecSurvivors stats).map (fun p => p.mVal.x1 * p.mVal.x1)).sum,
    ((rSpecSurvivors stats).map (fun p => p.mVal.x2 * p.mVal.x2)).sum,
    ((rSpecSurvivors stats).map (fun p => p.mVal.x3 * p.mVal.x3)).sum⟩,
   ⟨((rSpecSurvivors stats).map (fun p => p.vVal.x0)).sum,
    ((rSpecSurvivors stats).map (fun p => p.vVal.x1)).sum,
    ((rSpecSurvivors stats).map (fun p => p.vVal.x2)).sum,
    ((rSpecSurvivors stats).map (fun p => p.vVal.x3)).sum⟩,
   ⟨((rSpecSurvivors stats).map (fun p => p.mVal.x0 * p.vVal.x0)).sum,
    ((rSpecSurvivors stats).map (fun p => p.mVal.x1 * p.vVal.x1)).sum,
    ((rSpecSurvivors stats).map (fun p => p.mVal.x2 * p.vVal.x2)).sum,
    ((rSpecSurvivors stats).map (fun p => p.mVal.x3 * p.vVal.x3)).sum⟩,
   (rSpecSurvivors stats).length⟩

/-- The spec's accumulated raw squared residuals over the survivors. -/
def rSpecNewErr2Num (stats : List RStat) : V4 ℚ :=
  ⟨((rSpecSurvivors stats).map (fun p => (rSpecResidSq stats p).x0)).sum,
   ((rSpecSurvivors stats).map (fun p => (rSpecResidSq stats p).x1)).sum,
   ((rSpecSurvivors stats).map (fun p => (rSpecResidSq stats p).x2)).sum,
   ((rSpecSurvivors stats).map (fun p => (rSpecResidSq stats p).x3)).sum⟩

/-! ## Concrete statistics images used as witnesses and counterexamples -/

/-- A YCbCr statistics pixel with mean `m` and the same variance `v` in
all three channels (no NaN). -/
def yPix (m v : ℚ) : YStat := ⟨some m, V3.konst (some v)⟩

/-- A raw statistics pixel with mean `m`, variance `v` and kurtosis `0` in
all four channels (no NaN). -/
def rPix (m v : ℚ) : RStat :=
  ⟨V4.konst (some m), V4.konst (some v), V4.konst (some 0)⟩

/-- Three pixels whose variances have zero correlation with their means:
the fitted slope `B` collapses to the `1e-8` floor, so the refit ceiling
`varianceMax = B` rejects every pixel and the refit error is `0/0` (NaN). -/
def exY : List YStat :=
  [yPix (1 / 10) (2 / 10000), yPix (2 / 10) (4 / 10000), yPix (3 / 10) (2 / 10000)]

/-- Two pixels lying exactly on the line `v = 1e-4 + 1e-3 · m`: the fit is
exact, and the returned `A` is `1e-4` scaled by the squared exposure
multiplier. -/
def ex2 : List YStat := [yPix (1 / 10) (2 / 10000), yPix (1 / 5) (3 / 10000)]

/-- The raw-domain version of `exY`: the refit rejects every pixel, the
refit error is NaN, and the `assert(all(newErr2 < err2))` fails. -/
def exR : List RStat :=
  [rPix (1 / 10) (2 / 10000), rPix (2 / 10) (4 / 10000), rPix (3 / 10) (2 / 10000)]

/-- Four pixels near the line `v = 1e-4 + 5e-4 · m` with residual pattern
`(a, -3a, 3a, -a)`, `a = 1e-5`: the first fit recovers the line, the gate
keeps pixels 1 and 4, and the refit is strictly better, so `MeasureRawNLF`
returns normally. -/
def exROk : List RStat :=
  [rPix (1 / 10) (14 / 100000), rPix (2 / 10) (23 / 100000),
   rPix (3 / 10) (22 / 100000), rPix (4 / 10) (31 / 100000)]

/-- Local tone-mapping parameters with every octave's detail weight
exactly 1 (the identity weight). -/
def ltmAllOne : LTMParameters := ⟨V3.konst 1, 1 / 10⟩

theorem yStep_foldl (g : V3 ℚ) (stats : List YStat) (z : YAcc) :
    stats.foldl (yStep g) z =
      ⟨z.sx + fSum (yInclude g) YStat.mVal stats,
       z.sxx + fSum (yInclude g) (fun p => p.mVal * p.mVal) stats,
       z.sy.add (fSumV (yInclude g) YStat.vVal stats),
       z.sxy.add (fSumV (yInclude g) (fun p => V3.scale p.mVal p.vVal) stats),
       z.n + fSum (yInclude g) (fun _ => 1) stats⟩ := by
  induction stats generalizing z with
  | nil =>
    cases z
    simp [fSum, fSumV, V3.add, V3.zip]
  | cons p l ih =>
    rw [List.foldl_cons, ih]
    by_cases h : yInclude g p = true
    · simp only [yStep, h, if_true, fSum, fSumV, List.filter_cons, List.map_cons,
        List.sum_cons, V3.add, V3.zip, V3.scale, V3.map]
      simp only [YAcc.mk.injEq, V3.mk.injEq]
      refine ⟨?_, ?_, ⟨?_, ?_, ?_⟩, ⟨?_, ?_, ?_⟩, ?_⟩ <;> ring
    · simp only [yStep, h, if_false, fSum, fSumV, List.filter_cons, h, Bool.false_eq_true,
        if_false]

theorem yCondAdd_foldl (g : YStat → Bool) (f : YStat → V3 ℚ) (stats : List YStat)
    (z : V3 ℚ) :
    stats.foldl (fun acc p => if g p then acc.add (f p) else acc) z =
      z.add (fSumV g f stats) := by
  induction stats generalizing z with
  | nil => cases z; simp [fSum, fSumV, V3.add, V3.zip]
  | cons p l ih =>
    rw [List.foldl_cons, ih]
    by_cases h : g p = true
    · simp only [h, if_true, fSum, fSumV, List.filter_cons, List.map_cons,
        List.sum_cons, V3.add, V3.zip, V3.mk.injEq]
      refine ⟨?_, ?_, ?_⟩ <;> ring
    · simp only [h, Bool.false_eq_true, if_false, fSum, fSumV, List.filter_cons]

theorem ySecond_foldl (inc gate : YStat → Bool) (f : YStat → V3 ℚ)
    (stats : List YStat) (z : YAcc × V3 ℚ) :
    stats.foldl
      (fun acc p =>
        if inc p then
          if gate p then
            (⟨acc.1.sx + p.mVal, acc.1.sxx + p.mVal * p.mVal, acc.1.sy.add p.vVal,
              acc.1.sxy.add (V3.scale p.mVal p.vVal), acc.1.n + 1⟩,
             acc.2.add (f p))
          else acc
        else acc) z =
      (⟨z.1.sx + fSum (fun p => inc p && gate p) YStat.mVal stats,
        z.1.sxx + fSum (fun p => inc p && gate p) (fun p => p.mVal * p.mVal) stats,
        z.1.sy.add (fSumV (fun p => inc p && gate p) YStat.vVal stats),
        z.1.sxy.add (fSumV (fun p => inc p && gate p)
          (fun p => V3.scale p.mVal p.vVal) stats),
        z.1.n + fSum (fun p => inc p && gate p) (fun _ => 1) stats⟩,
       z.2.add (fSumV (fun p => inc p && gate p) f stats)) := by
  induction stats generalizing z with
  | nil =>
    obtain ⟨z1, z2⟩ := z
    cases z1
    simp [fSum, fSumV, V3.add, V3.zip]
  | cons p l ih =>
    rw [List.foldl_cons, ih]
    by_cases h1 : inc p = true
    · by_cases h2 : gate p = true
      · simp only [h1, h2, if_true, fSum, fSumV, List.filter_cons, Bool.and_self,
          List.map_cons, List.sum_cons, V3.add, V3.zip, V3.scale, V3.map,
          Prod.mk.injEq, YAcc.mk.injEq, V3.mk.injEq]
        refine ⟨⟨?_, ?_, ⟨?_, ?_, ?_⟩, ⟨?_, ?_, ?_⟩, ?_⟩, ?_, ?_, ?_⟩ <;> ring
      · simp only [h1, h2, if_true, Bool.false_eq_true, if_false, fSum, fSumV,
          List.filter_cons, Bool.and_false]
    · simp only [h1, Bool.false_eq_true, if_false, fSum, fSumV, List.filter_cons,
        Bool.false_and]

theorem rStep_foldl (g : V4 ℚ) (stats : List RStat) (z : RAcc) :
    stats.foldl (rStep g) z =
      ⟨z.sx.add (rSumV (rInclude g) RStat.mVal stats),
       z.sxx.add (rSumV (rInclude g) (fun p => p.mVal.mul p.mVal) stats),
       z.sy.add (rSumV (rInclude g) RStat.vVal stats),
       z.sxy.add (rSumV (rInclude g) (fun p => p.mVal.mul p.vVal) stats),
       z.n + rSum (rInclude g) (fun _ => 1) stats⟩ := by
  induction stats generalizing z with
  | nil => cases z; simp [rSum, rSumV, V4.add, V4.zip]
  | cons p l ih =>
    rw [List.foldl_cons, ih]
    by_cases h : rInclude g p = true
    · simp only [rStep, h, if_true, rSum, rSumV, List.filter_cons, List.map_cons,
        List.sum_cons, V4.add, V4.zip, V4.mul, RAcc.mk.injEq, V4.mk.injEq]
      refine ⟨⟨?_, ?_, ?_, ?_⟩, ⟨?_, ?_, ?_, ?_⟩, ⟨?_, ?_, ?_, ?_⟩,
        ⟨?_, ?_, ?_, ?_⟩, ?_⟩ <;> ring
    · simp only [rStep, h, Bool.false_eq_true, if_false, rSum, rSumV, List.filter_cons]

theorem rCondAdd_foldl (g : RStat → Bool) (f : RStat → V4 ℚ) (stats : List RStat)
    (z : V4 ℚ) :
    stats.foldl (fun acc p => if g p then acc.add (f p) else acc) z =
      z.add (rSumV g f stats) := by
  induction stats generalizing z with
  | nil => cases z; simp [rSum, rSumV, V4.add, V4.zip]
  | cons p l ih =>
    rw [List.foldl_cons, ih]
    by_cases h : g p = true
    · simp only [h, if_true, rSum, rSumV, List.filter_cons, List.map_cons,
        List.sum_cons, V4.add, V4.zip, V4.mk.injEq]
      refine ⟨?_, ?_, ?_, ?_⟩ <;> ring
    · simp only [h, Bool.false_eq_true, if_false, rSum, rSumV, List.filter_cons]

theorem rSecond_foldl (inc gate : RStat → Bool) (f : RStat → V4 ℚ)
    (stats : List RStat) (z : RAcc × V4 ℚ) :
    stats.foldl
      (fun acc p =>
        if inc p then
          if gate p then
            (⟨acc.1.sx.add p.mVal, acc.1.sxx.add (p.mVal.mul p.mVal),
              acc.1.sy.add p.vVal, acc.1.sxy.add (p.mVal.mul p.vVal), acc.1.n + 1⟩,
             acc.2.add (f p))
          else acc
        else acc) z =
      (⟨z.1.sx.add (rSumV (fun p => inc p && gate p) RStat.mVal stats),
        z.1.sxx.add (rSumV (fun p => inc p && gate p)
          (fun p => p.mVal.mul p.mVal) stats),
        z.1.sy.add (rSumV (fun p => inc p && gate p) RStat.vVal stats),
        z.1.sxy.add (rSumV (fun p => inc p && gate p)
          (fun p => p.mVal.mul p.vVal) stats),
        z.1.n + rSum (fun p => inc p && gate p) (fun _ => 1) stats⟩,
       z.2.add (rSumV (fun p => inc p && gate p) f stats)) := by
  induction stats generalizing z with
  | nil =>
    obtain ⟨z1, z2⟩ := z
    cases z1
    simp [rSum, rSumV, V4.add, V4.zip]
  | cons p l ih =>
    rw [List.foldl_cons, ih]
    by_cases h1 : inc p = true
    · by_cases h2 : gate p = true
      · simp only [h1, h2, if_true, rSum, rSumV, List.filter_cons, Bool.and_self,
          List.map_cons, List.sum_cons, V4.add, V4.zip, V4.mul,
          Prod.mk.injEq, RAcc.mk.injEq, V4.mk.injEq]
        refine ⟨⟨⟨?_, ?_, ?_, ?_⟩, ⟨?_, ?_, ?_, ?_⟩, ⟨?_, ?_, ?_, ?_⟩,
          ⟨?_, ?_, ?_, ?_⟩, ?_⟩, ?_, ?_, ?_, ?_⟩ <;> ring
      · simp only [h1, h2, if_true, Bool.false_eq_true, if_false, rSum, rSumV,
          List.filter_cons, Bool.and_false]
    · simp only [h1, Bool.false_eq_true, if_false, rSum, rSumV, List.filter_cons,
        Bool.false_and]

/-- The spec-side YCbCr inclusion filter coincides with the loop filter of
the source with the initial ceiling. -/
theorem ySpecInclude_eq (p : YStat) :
    ySpecInclude p = yInclude (V3.konst varianceMax0) p := by
  simp only [ySpecInclude, yInclude, YStat.valid, YStat.vVal, V3.all, V3.leq,
    V3.zip, V3.konst, V3.map, id, Bool.and_assoc]

/-- The spec-side raw inclusion filter coincides with the loop filter of
the source with the initial ceiling. -/
theorem rSpecInclude_eq (p : RStat) :
    rSpecInclude p = rInclude (V4.konst varianceMax0) p := by
  simp only [rSpecInclude, rInclude, RStat.valid, RStat.mVal, RStat.vVal,
    RStat.kVal, V4.all, V4.leq, V4.ltq, V4.zip, V4.konst, V4.map, id,
    Bool.decide_and, Bool.and_assoc]

/-- The first statistics pass of `MeasureYCbCrNLF` computes exactly the
spec's sums over the spec's filtered pixel set. -/
theorem yFirstAcc_spec (stats : List YStat) :
    yFirstAcc stats =
      ⟨ySpecSumX stats, ySpecSumXX stats, ySpecSumY stats, ySpecSumXY stats,
       ySpecN stats⟩ := by
  have hf : stats.filter ySpecInclude = stats.filter (yInclude (V3.konst varianceMax0)) :=
    List.filter_congr (fun p _ => ySpecInclude_eq p)
  unfold yFirstAcc yCollect
  rw [yStep_foldl]
  simp only [ySpecSumX, ySpecSumXX, ySpecSumY, ySpecSumXY, ySpecN, ySpecPixels, hf]
  simp [fSum, fSumV, YAcc.zero, V3.zero, V3.konst, V3.add, V3.zip, V3.scale, V3.map]

/-- The first fit of `MeasureYCbCrNLF` is exactly the spec's clamped
ordinary least squares over the spec's filtered pixel set. -/
theorem yFirstFit_spec (stats : List YStat) :
    yFirstFit stats = (ySpecA stats, ySpecB stats) := by
  unfold yFirstFit
  rw [yFirstAcc_spec]
  unfold fit3 ySpecA ySpecB
  simp only [V3.map, V3.zip, V3.sub, V3.scale, Prod.mk.injEq, V3.mk.injEq]
  ring_nf
  simp [mul_comm]

/-- The first statistics pass of `MeasureRawNLF` computes exactly the
spec's sums over the spec's filtered pixel set. -/
theorem rFirstAcc_spec (stats : List RStat) :
    rFirstAcc stats =
      ⟨rSpecSumX stats, rSpecSumXX stats, rSpecSumY stats, rSpecSumXY stats,
       rSpecN stats⟩ := by
  have hf : stats.filter rSpecInclude = stats.filter (rInclude (V4.konst varianceMax0)) :=
    List.filter_congr (fun p _ => rSpecInclude_eq p)
  unfold rFirstAcc rCollect
  rw [rStep_foldl]
  simp only [rSpecSumX, rSpecSumXX, rSpecSumY, rSpecSumXY, rSpecN, rSpecPixels, hf]
  simp [rSum, rSumV, RAcc.zero, V4.zero, V4.konst, V4.add, V4.zip, V4.mul, V4.map]

/-- The first fit of `MeasureRawNLF` is exactly the spec's clamped
ordinary least squares over the spec's filtered pixel set. -/
theorem rFirstFit_spec (stats : List RStat) :
    rFirstFit stats = (rSpecA stats, rSpecB stats) := by
  unfold rFirstFit
  rw [rFirstAcc_spec]
  unfold fit4 rSpecA rSpecB specAchan specBchan
  simp only [V4.map, V4.zip, V4.sub, V4.scale, V4.mul, Prod.mk.injEq, V4.mk.injEq]
  ring_nf
  simp [mul_comm]

theorem ySpecIncludeC_eq (c : V3 ℚ) (p : YStat) :
    ySpecIncludeC c p = yInclude c p := by
  simp only [ySpecIncludeC, yInclude, YStat.valid, YStat.vVal, V3.all, V3.leq,
    V3.zip, V3.map, id, Bool.and_assoc]

theorem ySpecResidSq_eq (stats : List YStat) (p : YStat) :
    yResidSq (ySpecA stats) (ySpecB stats) p = ySpecResidSq stats p := by
  simp only [yResidSq, yPredict, ySpecResidSq, V3.add, V3.sub, V3.zip, V3.scale,
    V3.map, V3.mk.injEq]
  refine ⟨?_, ?_, ?_⟩ <;> rw [abs_mul_abs_self] <;> ring

/-- The `err2` computed by `MeasureYCbCrNLF` is the spec's: the first
fit's mean squared residual over the first inclusion set. -/
theorem yErr2_spec (stats : List YStat) : yErr2 stats = ySpecErr2 stats := by
  have hf : stats.filter ySpecInclude = stats.filter (yInclude (V3.konst varianceMax0)) :=
    List.filter_congr (fun p _ => ySpecInclude_eq p)
  have hfun : (fun p => yResidSq (yFirstFit stats).1 (yFirstFit stats).2 p) =
      ySpecResidSq stats := by
    funext p
    rw [yFirstFit_spec]
    exact ySpecResidSq_eq stats p
  have hp : stats.filter (yInclude (V3.konst varianceMax0)) = ySpecPixels stats := by
    rw [ySpecPixels]
    exact hf.symm
  unfold yErr2
  rw [yCondAdd_foldl]
  simp only [yFirstAcc_spec, ySpecErr2, fSumV, fSum, hp, hfun]
  by_cases hn : ySpecN stats = 0
  · simp [hn]
  · simp [hn, V3.add, V3.zip, V3.zero, V3.konst, V3.map]

theorem yGate_spec (stats : List YStat) (p : YStat) :
    yGate (ySpecA stats) (ySpecB stats) (ySpecErr2 stats) p = ySpecGate stats p := by
  unfold yGate ySpecGate
  rcases h : ySpecErr2 stats with _ | e
  · rfl
  · simp only [ySpecResidSq_eq, V3.leq, V3.zip, V3.all, V3.map, id, Bool.and_assoc]

/-- The second pass of `MeasureYCbCrNLF` accumulates exactly over the
spec's surviving set: ceiling equal to the first fit's `B`, residual gate
against the first model at `0.5 * err2`. -/
theorem ySecondPass_spec (stats : List YStat) :
    ySecondPass stats = (ySpecSecondAcc stats, ySpecNewErr2Num stats) := by
  have hfun : (fun p => yResidSq (yFirstFit stats).1 (yFirstFit stats).2 p) =
      ySpecResidSq stats := by
    funext p
    rw [yFirstFit_spec]
    exact ySpecResidSq_eq stats p
  have hpred : ∀ p, (yInclude (yFirstFit stats).2 p &&
      yGate (yFirstFit stats).1 (yFirstFit stats).2 (yErr2 stats) p) =
      (ySpecIncludeC (ySpecB stats) p && ySpecGate stats p) := by
    intro p
    rw [yFirstFit_spec, yErr2_spec, ySpecIncludeC_eq, yGate_spec]
  have hsurv : stats.filter (fun p => yInclude (yFirstFit stats).2 p &&
      yGate (yFirstFit stats).1 (yFirstFit stats).2 (yErr2 stats) p) =
      ySpecSurvivors stats := by
    rw [ySpecSurvivors]
    exact List.filter_congr (fun p _ => hpred p)
  unfold ySecondPass
  rw [ySecond_foldl]
  simp only [fSum, fSumV, hsurv, hfun, ySpecSecondAcc, ySpecNewErr2Num,
    YAcc.zero, Prod.mk.injEq]
  constructor
  · simp [V3.add, V3.zip, V3.zero, V3.konst, V3.scale, V3.map]
  · simp [V3.add, V3.zip, V3.zero, V3.konst]

theorem rSpecIncludeC_eq (c : V4 ℚ) (p : RStat) :
    rSpecIncludeC c p = rInclude c p := by
  simp only [rSpecIncludeC, rInclude, RStat.valid, RStat.mVal, RStat.vVal,
    RStat.kVal, V4.all, V4.leq, V4.ltq, V4.zip, V4.konst, V4.map, id,
    Bool.decide_and, Bool.and_assoc]

theorem rSpecResidSq_eq (stats : List RStat) (p : RStat) :
    rResidSq (rSpecA stats) (rSpecB stats) p = rSpecResidSq stats p := by
  simp only [rResidSq, rPredict, rSpecResidSq, V4.add, V4.sub, V4.zip, V4.mul,
    V4.map, V4.mk.injEq]
  refine ⟨?_, ?_, ?_, ?_⟩ <;> rw [abs_mul_abs_self]

theorem rErr2_spec (stats : List RStat) : rErr2 stats = rSpecErr2 stats := by
  have hf : stats.filter rSpecInclude = stats.filter (rInclude (V4.konst varianceMax0)) :=
    List.filter_congr (fun p _ => rSpecInclude_eq p)
  have hfun : (fun p => rResidSq (rFirstFit stats).1 (rFirstFit stats).2 p) =
      rSpecResidSq stats := by
    funext p
    rw [rFirstFit_spec]
    exact rSpecResidSq_eq stats p
  have hp : stats.filter (rInclude (V4.konst varianceMax0)) = rSpecPixels stats := by
    rw [rSpecPixels]
    exact hf.symm
  unfold rErr2
  rw [rCondAdd_foldl]
  simp only [rFirstAcc_spec, rSpecErr2, rSumV, rSum, hp, hfun]
  by_cases hn : rSpecN stats = 0
  · simp [hn]
  · simp [hn, V4.add, V4.zip, V4.zero, V4.konst, V4.map]

theorem rGate_spec (stats : List RStat) (p : RStat) :
    rGate (rSpecA stats) (rSpecB stats) (rSpecErr2 stats) p = rSpecGate stats p := by
  unfold rGate rSpecGate
  rcases h : rSpecErr2 stats with _ | e
  · rfl
  · simp only [rSpecResidSq_eq, V4.leq, V4.zip, V4.all, V4.map, id, Bool.and_assoc]

/-- The second pass of `MeasureRawNLF` accumulates exactly over the spec's
surviving set. -/
theorem rSecondPass_spec (stats : List RStat) :
    rSecondPass stats = (rSpecSecondAcc stats, rSpecNewErr2Num stats) := by
  have hfun : (fun p => rResidSq (rFirstFit stats).1 (rFirstFit stats).2 p) =
      rSpecResidSq stats := by
    funext p
    rw [rFirstFit_spec]
    exact rSpecResidSq_eq stats p
  have hpred : ∀ p, (rInclude (rFirstFit stats).2 p &&
      rGate (rFirstFit stats).1 (rFirstFit stats).2 (rErr2 stats) p) =
      (rSpecIncludeC (rSpecB stats) p && rSpecGate stats p) := by
    intro p
    rw [rFirstFit_spec, rErr2_spec, rSpecIncludeC_eq, rGate_spec]
  have hsurv : stats.filter (fun p => rInclude (rFirstFit stats).2 p &&
      rGate (rFirstFit stats).1 (rFirstFit stats).2 (rErr2 stats) p) =
      rSpecSurvivors stats := by
    rw [rSpecSurvivors]
    exact List.filter_congr (fun p _ => hpred p)
  unfold rSecondPass
  rw [rSecond_foldl]
  simp only [rSum, rSumV, hsurv, hfun, rSpecSecondAcc, rSpecNewErr2Num,
    RAcc.zero, Prod.mk.injEq]
  constructor
  · simp [V4.add, V4.zip, V4.zero, V4.konst, V4.mul, V4.map]
  · simp [V4.add, V4.zip, V4.zero, V4.konst]

/-! ## Gaussian tap lemmas -/

theorem kernelSize_pos (radius : ℚ) : 1 ≤ kernelSize radius := by
  unfold kernelSize
  by_cases h : (Int.ceil (2 * radius)).toNat % 2 == 0 <;>
    simp only [h, if_true, Bool.false_eq_true, if_false]
  · omega
  · have h2 : (Int.ceil (2 * radius)).toNat % 2 = 1 := by
      rcases Nat.mod_two_eq_zero_or_one ((Int.ceil (2 * radius)).toNat) with h0 | h1
      · exact absurd (by simpa using h0) h
      · exact h1
    omega

theorem totalCellWeight_pos (radius : ℚ) : 0 < totalCellWeight radius := by
  unfold totalCellWeight
  apply Finset.sum_pos
  · intro i _
    exact Real.exp_pos _
  · refine ⟨(0, 0), ?_⟩
    have h := kernelSize_pos radius
    simp [gridSet, Finset.mem_product]
    omega

theorem tapOf_maps_to (radius : ℚ) :
    ∀ ij ∈ gridSet radius, tapOf ij ∈ tapSet radius := by
  intro ij hij
  simp only [gridSet, tapSet, Finset.mem_product, Finset.mem_range] at hij ⊢
  unfold tapOf outWidth
  omega

/-- The bilinear tap weights of `gaussianKernelBilinearWeights` sum to 1:
the merge partitions the grid cells among the taps, and the weights are
normalized by the grid total. -/
theorem tapWeightSum_one (radius : ℚ) : tapWeightSum radius = 1 := by
  unfold tapWeightSum tapWeight
  rw [← Finset.sum_div]
  rw [Finset.sum_fiberwise_of_maps_to (tapOf_maps_to radius) (cellWeight radius)]
  exact div_self (ne_of_gt (totalCellWeight_pos radius))

theorem weightsCount_le (radius : ℚ) :
    weightsCount radius ≤ naiveTapCount radius := by
  unfold weightsCount naiveTapCount outWidth
  have h := kernelSize_pos radius
  exact Nat.mul_le_mul (by omega) (by omega)

/-! ## Helper lemmas for the claim theorems -/

theorem clampFloor_ge (x : D) : nlfFloor ≤ clampFloor x := by
  cases x with
  | none => simp [clampFloor, nlfFloor]
  | some q => exact le_max_right q nlfFloor

theorem fit3_floorA (a : YAcc) :
    nlfFloor ≤ (fit3 a).1.x0 ∧ nlfFloor ≤ (fit3 a).1.x1 ∧ nlfFloor ≤ (fit3 a).1.x2 := by
  refine ⟨?_, ?_, ?_⟩ <;> exact clampFloor_ge _

theorem fit3_floorB (a : YAcc) :
    nlfFloor ≤ (fit3 a).2.x0 ∧ nlfFloor ≤ (fit3 a).2.x1 ∧ nlfFloor ≤ (fit3 a).2.x2 := by
  refine ⟨?_, ?_, ?_⟩ <;> exact clampFloor_ge _

theorem fit4_floorA (a : RAcc) :
    nlfFloor ≤ (fit4 a).1.x0 ∧ nlfFloor ≤ (fit4 a).1.x1 ∧
    nlfFloor ≤ (fit4 a).1.x2 ∧ nlfFloor ≤ (fit4 a).1.x3 := by
  refine ⟨?_, ?_, ?_, ?_⟩ <;> exact clampFloor_ge _

theorem fit4_floorB (a : RAcc) :
    nlfFloor ≤ (fit4 a).2.x0 ∧ nlfFloor ≤ (fit4 a).2.x1 ∧
    nlfFloor ≤ (fit4 a).2.x2 ∧ nlfFloor ≤ (fit4 a).2.x3 := by
  refine ⟨?_, ?_, ?_, ?_⟩ <;> exact clampFloor_ge _

theorem floor_scale_le (pre m : ℚ) (h : nlfFloor ≤ pre) :
    nlfFloor * (m * m) ≤ m * m * pre := by
  nlinarith [mul_self_nonneg m]

theorem scale_scale_v3 (a b : ℚ) (v : V3 ℚ) :
    V3.scale a (V3.scale b v) = V3.scale (a * b) v := by
  cases v
  simp only [V3.scale, V3.map, V3.mk.injEq]
  refine ⟨?_, ?_, ?_⟩ <;> ring

theorem scale_scale_v4 (a b : ℚ) (v : V4 ℚ) :
    V4.scale a (V4.scale b v) = V4.scale (a * b) v := by
  cases v
  simp only [V4.scale, V4.map, V4.mk.injEq]
  refine ⟨?_, ?_, ?_, ?_⟩ <;> ring

/-! ## Claim theorems -/

/-- C3: for a fixed input image, the (A, B) pair returned by
`MeasureYCbCrNLF` and `MeasureRawNLF` scales quadratically with the
exposure multiplier: calling with multiplier `2·m` returns componentwise
exactly 4 times the A and B returned with multiplier `m` (both
coefficients are multiplied by `exposureMultiplier²` just before return). -/
theorem C3_exposure_scaling_quadratic :
    (∀ (stats : List YStat) (m : ℚ),
      (MeasureYCbCrNLF stats (2 * m)).A = V3.scale 4 (MeasureYCbCrNLF stats m).A ∧
      (MeasureYCbCrNLF stats (2 * m)).B = V3.scale 4 (MeasureYCbCrNLF stats m).B) ∧
    (∀ (stats : List RStat) (m : ℚ),
      MeasureRawNLF stats (2 * m) =
        Except.map (fun r => (V4.scale 4 r.1, V4.scale 4 r.2)) (MeasureRawNLF stats m)) := by
  have h4 : ∀ m : ℚ, 2 * m * (2 * m) = 4 * (m * m) := fun m => by ring
  constructor
  · intro stats m
    by_cases h : yAccept stats
    · simp only [MeasureYCbCrNLF, h, if_true, scale_scale_v3, h4]
      exact ⟨trivial, trivial⟩
    · rw [Bool.not_eq_true] at h
      simp only [MeasureYCbCrNLF, h, Bool.false_eq_true, if_false, scale_scale_v3, h4]
      exact ⟨trivial, trivial⟩
  · intro stats m
    by_cases h : rStrictlyBetter stats
    · simp only [MeasureRawNLF, h, if_true, Except.map, scale_scale_v4, h4]
    · rw [Bool.not_eq_true] at h
      simp only [MeasureRawNLF, h, Bool.false_eq_true, if_false, Except.map]

/-- C4: the initial fit of both NLF estimators is ordinary least squares
over exactly the pixels whose mean/variance(/kurtosis) are all non-NaN,
whose mean lies in `[0.001, 0.5]`, whose variance is at or below the
initial ceiling `0.001`, and (raw variant only) whose kurtosis lies
strictly in `(-1, 1)`; over that set
`B = (NΣxy − ΣxΣy)/(NΣx² − (Σx)²)` and `A = (Σy − BΣx)/N`, each clamped
componentwise to a floor of `1e-8`. -/
theorem C4_initial_fit_is_filtered_ols :
    (∀ stats : List YStat, yFirstFit stats = (ySpecA stats, ySpecB stats)) ∧
    (∀ stats : List RStat, rFirstFit stats = (rSpecA stats, rSpecB stats)) :=
  ⟨yFirstFit_spec, rFirstFit_spec⟩

/-- C5: in the refit pass of both NLF estimators, the variance ceiling
equals the first fit's `B`, and a pixel contributes to the second
regression iff it passes the original inclusion filter with the new
ceiling and additionally its squared residual against the first model is
`≤ 0.5 · err2`, where `err2` is the first fit's mean squared residual;
the second regression accumulates over exactly this surviving set. -/
theorem C5_refit_outlier_rejection :
    (∀ stats : List YStat, yErr2 stats = ySpecErr2 stats) ∧
    (∀ stats : List YStat,
      ySecondPass stats = (ySpecSecondAcc stats, ySpecNewErr2Num stats)) ∧
    (∀ stats : List RStat, rErr2 stats = rSpecErr2 stats) ∧
    (∀ stats : List RStat,
      rSecondPass stats = (rSpecSecondAcc stats, rSpecNewErr2Num stats)) :=
  ⟨yErr2_spec, ySecondPass_spec, rErr2_spec, rSecondPass_spec⟩

/-- C6 (counterexample): the claim "the guided-filter pass is run if and
only if the octave's detail weight is not exactly 1" fails at the LF
octave: with every detail weight equal to 1, the LF octave's
guided-filter pass is still enqueued. -/
theorem C6_counterexample :
    LTMPass.guidedFilter 0 ∈ localToneMappingMaskTrace ltmAllOne ∧
      detailAt ltmAllOne 0 = 1 := by
  constructor
  · simp [localToneMappingMaskTrace, ltmRunCondition, ltmAllOne, detailAt, V3.konst]
  · simp [ltmAllOne, detailAt, V3.konst]

/-- C6 (amended): in `localToneMappingMask`, the MF and HF octaves' passes
(guided filter and box filter) are run iff the octave's detail weight is
not exactly 1, while the LF octave's passes are always run. -/
theorem C6_ltm_pass_condition (p : LTMParameters) :
    (LTMPass.guidedFilter 0 ∈ localToneMappingMaskTrace p ∧
     LTMPass.boxFilter 0 ∈ localToneMappingMaskTrace p) ∧
    ((LTMPass.guidedFilter 1 ∈ localToneMappingMaskTrace p ↔ detailAt p 1 ≠ 1) ∧
     (LTMPass.boxFilter 1 ∈ localToneMappingMaskTrace p ↔ detailAt p 1 ≠ 1)) ∧
    ((LTMPass.guidedFilter 2 ∈ localToneMappingMaskTrace p ↔ detailAt p 2 ≠ 1) ∧
     (LTMPass.boxFilter 2 ∈ localToneMappingMaskTrace p ↔ detailAt p 2 ≠ 1)) := by
  by_cases d1 : detailAt p 1 = 1 <;> by_cases d2 : detailAt p 2 = 1 <;>
    simp [localToneMappingMaskTrace, ltmRunCondition, d1, d2]

/-- C7: for every requested radius `r > 0`, the tap list built by
`gaussianKernelBilinearWeights` has total weight 1, and the number of
bilinear-optimized taps is at most the naive full kernel's
`kernelSize × kernelSize` tap count. -/
theorem C7_gaussian_taps (radius : ℚ) (hr : 0 < radius) :
    tapWeightSum radius = 1 ∧ weightsCount radius ≤ naiveTapCount radius :=
  ⟨tapWeightSum_one radius, weightsCount_le radius⟩

/-- C7 witness: the theorem applied at radius 1. -/
theorem C7_witness :
    (0 : ℚ) < 1 ∧ (tapWeightSum 1 = 1 ∧ weightsCount 1 ≤ naiveTapCount 1) :=
  ⟨by norm_num, C7_gaussian_taps 1 (by norm_num)⟩

/-- C8: every Bayer-quad conversion stage enforces the exact half-size
shape relationship as a fatal precondition: `fasteDebayer` and
`bayerToRawRGBA` assert the raw input is exactly twice the RGBA output,
`rawRGBAToBayer` asserts the raw output is exactly twice the RGBA input;
the check passes iff the exact relation holds, a violating call failing
the assertion. -/
theorem C8_shape_preconditions :
    (∀ rawImage rgbImage : ImgShape,
      fasteDebayerCheck rawImage rgbImage = Except.ok () ↔
        rawImage.width = 2 * rgbImage.width ∧ rawImage.height = 2 * rgbImage.height) ∧
    (∀ rawImage rgbaImage : ImgShape,
      bayerToRawRGBACheck rawImage rgbaImage = Except.ok () ↔
        rawImage.width = 2 * rgbaImage.width ∧ rawImage.height = 2 * rgbaImage.height) ∧
    (∀ rgbaImage rawImage : ImgShape,
      rawRGBAToBayerCheck rgbaImage rawImage = Except.ok () ↔
        rawImage.width = 2 * rgbaImage.width ∧ rawImage.height = 2 * rgbaImage.height) := by
  refine ⟨fun a b => ?_, fun a b => ?_, fun a b => ?_⟩ <;>
    · simp only [fasteDebayerCheck, bayerToRawRGBACheck, rawRGBAToBayerCheck]
      split <;> simp_all

/-- C10: `despeckleRawBlackImage` is a no-op: for every input it returns
the output buffer exactly as it was passed in — it does not copy the
input to the output or touch any other state. -/
theorem C10_despeckle_noop :
    ∀ (rawImage : RawImage) (bayerPattern : BayerPattern)
      (despeckledImage : RawImage),
      despeckleRawBlackImage rawImage bayerPattern despeckledImage =
        despeckledImage :=
  fun _ _ _ => rfl

/-! ## Concrete evaluations, staged per pipeline phase -/

theorem exY_firstAcc :
    yFirstAcc exY = ⟨3 / 5, 7 / 50, V3.konst (1 / 1250), V3.konst (1 / 6250), 3⟩ := by
  norm_num [yFirstAcc, yCollect, yStep, yInclude, exY, yPix, YStat.valid, YStat.mVal,
    YStat.vVal, V3.all, V3.leq, V3.zip, V3.konst, V3.map, V3.add, V3.scale, V3.zero,
    YAcc.zero, minValue, maxValue, varianceMax0, List.foldl]

theorem exY_firstFit :
    yFirstFit exY =
      (V3.konst (399997 / 1500000000), V3.konst (1 / 100000000)) := by
  rw [yFirstFit, exY_firstAcc]
  norm_num [fit3, clampFloor, qdiv, V3.map, V3.zip, V3.sub, V3.scale, V3.konst]

theorem exY_secondPass : ySecondPass exY = (YAcc.zero, V3.zero) := by
  simp only [ySecondPass, exY_firstFit]
  norm_num [yInclude, exY, yPix, YStat.valid, YStat.mVal, YStat.vVal, V3.all, V3.leq,
    V3.zip, V3.konst, V3.map, minValue, maxValue, List.foldl]

theorem exY_newErr2 : yNewErr2 exY = none := by
  simp only [yNewErr2, exY_secondPass]
  norm_num [YAcc.zero]

theorem exY_accept_false : yAccept exY = false := by
  simp only [yAccept, exY_newErr2]

theorem exR_firstAcc :
    rFirstAcc exR =
      ⟨V4.konst (3 / 5), V4.konst (7 / 50), V4.konst (1 / 1250), V4.konst (1 / 6250),
       3⟩ := by
  norm_num [rFirstAcc, rCollect, rStep, rInclude, exR, rPix, RStat.valid, RStat.mVal,
    RStat.vVal, RStat.kVal, V4.all, V4.leq, V4.ltq, V4.zip, V4.konst, V4.map, V4.add,
    V4.mul, V4.zero, RAcc.zero, minValue, maxValue, varianceMax0, minK, maxK,
    List.foldl]

theorem exR_firstFit :
    rFirstFit exR =
      (V4.konst (399997 / 1500000000), V4.konst (1 / 100000000)) := by
  rw [rFirstFit, exR_firstAcc]
  norm_num [fit4, clampFloor, qdiv, V4.map, V4.zip, V4.sub, V4.mul, V4.scale, V4.konst]

theorem exR_secondPass : rSecondPass exR = (RAcc.zero, V4.zero) := by
  simp only [rSecondPass, exR_firstFit]
  norm_num [rInclude, exR, rPix, RStat.valid, RStat.mVal, RStat.vVal, RStat.kVal,
    V4.all, V4.leq, V4.ltq, V4.zip, V4.konst, V4.map, minValue, maxValue, minK, maxK,
    List.foldl]

theorem exR_newErr2 : rNewErr2 exR = none := by
  simp only [rNewErr2, exR_secondPass]
  norm_num [RAcc.zero]

theorem exR_notWorse_false : rNotWorse exR = false := by
  simp only [rNotWorse, exR_newErr2]

theorem exR_strict_false : rStrictlyBetter exR = false := by
  simp only [rStrictlyBetter, exR_newErr2]

theorem exROk_firstAcc :
    rFirstAcc exROk =
      ⟨V4.konst 1, V4.konst (3 / 10), V4.konst (9 / 10000), V4.konst (1 / 4000),
       4⟩ := by
  norm_num [rFirstAcc, rCollect, rStep, rInclude, exROk, rPix, RStat.valid,
    RStat.mVal, RStat.vVal, RStat.kVal, V4.all, V4.leq, V4.ltq, V4.zip, V4.konst,
    V4.map, V4.add, V4.mul, V4.zero, RAcc.zero, minValue, maxValue, varianceMax0,
    minK, maxK, List.foldl]

theorem exROk_firstFit :
    rFirstFit exROk = (V4.konst (1 / 10000), V4.konst (1 / 2000)) := by
  rw [rFirstFit, exROk_firstAcc]
  norm_num [fit4, clampFloor, qdiv, V4.map, V4.zip, V4.sub, V4.mul, V4.scale, V4.konst]

theorem exROk_err2 : rErr2 exROk = some (V4.konst (1 / 2000000000)) := by
  simp only [rErr2, exROk_firstFit, exROk_firstAcc]
  norm_num [rResidSq, rPredict, rInclude, exROk, rPix, RStat.valid, RStat.mVal,
    RStat.vVal, RStat.kVal, V4.all, V4.leq, V4.ltq, V4.zip, V4.konst, V4.map, V4.add,
    V4.sub, V4.mul, V4.zero, minValue, maxValue, varianceMax0, minK, maxK,
    List.foldl]

theorem exROk_secondPass :
    rSecondPass exROk =
      (⟨V4.konst (1 / 2), V4.konst (17 / 100), V4.konst (9 / 20000),
        V4.konst (69 / 500000), 2⟩,
       V4.konst (1 / 5000000000)) := by
  simp only [rSecondPass, exROk_firstFit, exROk_err2]
  norm_num [rInclude, rGate, rResidSq, rPredict, exROk, rPix, RStat.valid, RStat.mVal,
    RStat.vVal, RStat.kVal, V4.all, V4.leq, V4.ltq, V4.zip, V4.konst, V4.map, V4.add,
    V4.sub, V4.mul, V4.zero, RAcc.zero, minValue, maxValue, minK, maxK, List.foldl]

theorem exROk_newErr2 : rNewErr2 exROk = some (V4.konst (1 / 10000000000)) := by
  simp only [rNewErr2, exROk_secondPass]
  norm_num [V4.map, V4.konst]

theorem exROk_strict : rStrictlyBetter exROk = true := by
  simp only [rStrictlyBetter, exROk_newErr2, exROk_err2]
  norm_num [V4.ltq, V4.zip, V4.all, V4.konst, id]

theorem exROk_result :
    MeasureRawNLF exROk 1 = Except.ok (V4.konst (1 / 12000), V4.konst (17 / 30000)) := by
  simp only [MeasureRawNLF, exROk_strict, if_true, exROk_secondPass]
  norm_num [fit4, clampFloor, qdiv, V4.map, V4.zip, V4.sub, V4.mul, V4.scale, V4.konst]

theorem ex2_firstAcc :
    yFirstAcc ex2 = ⟨3 / 10, 1 / 20, V3.konst (1 / 2000), V3.konst (1 / 12500), 2⟩ := by
  norm_num [yFirstAcc, yCollect, yStep, yInclude, ex2, yPix, YStat.valid, YStat.mVal,
    YStat.vVal, V3.all, V3.leq, V3.zip, V3.konst, V3.map, V3.add, V3.scale, V3.zero,
    YAcc.zero, minValue, maxValue, varianceMax0, List.foldl]

theorem ex2_firstFit :
    yFirstFit ex2 = (V3.konst (1 / 10000), V3.konst (1 / 1000)) := by
  rw [yFirstFit, ex2_firstAcc]
  norm_num [fit3, clampFloor, qdiv, V3.map, V3.zip, V3.sub, V3.scale, V3.konst]

theorem ex2_err2 : yErr2 ex2 = some (V3.konst 0) := by
  simp only [yErr2, ex2_firstFit, ex2_firstAcc]
  norm_num [yResidSq, yPredict, yInclude, ex2, yPix, YStat.valid, YStat.mVal,
    YStat.vVal, V3.all, V3.leq, V3.zip, V3.konst, V3.map, V3.add, V3.sub, V3.scale,
    V3.zero, minValue, maxValue, varianceMax0, List.foldl]

theorem ex2_secondPass :
    ySecondPass ex2 =
      (⟨3 / 10, 1 / 20, V3.konst (1 / 2000), V3.konst (1 / 12500), 2⟩,
       V3.konst 0) := by
  simp only [ySecondPass, ex2_firstFit, ex2_err2]
  norm_num [yInclude, yGate, yResidSq, yPredict, ex2, yPix, YStat.valid, YStat.mVal,
    YStat.vVal, V3.all, V3.leq, V3.zip, V3.konst, V3.map, V3.add, V3.sub, V3.scale,
    V3.zero, YAcc.zero, minValue, maxValue, List.foldl]

theorem ex2_newErr2 : yNewErr2 ex2 = some (V3.konst 0) := by
  simp only [yNewErr2, ex2_secondPass]
  norm_num [V3.map, V3.konst]

theorem ex2_accept : yAccept ex2 = true := by
  simp only [yAccept, ex2_newErr2, ex2_err2]
  norm_num [V3.leq, V3.zip, V3.all, V3.konst, id]

theorem ex2_result :
    MeasureYCbCrNLF ex2 (1 / 1000) =
      ⟨V3.konst (1 / 10000000000), V3.konst (1 / 1000000000), false⟩ := by
  simp only [MeasureYCbCrNLF, ex2_accept, if_true, ex2_secondPass]
  norm_num [fit3, clampFloor, qdiv, V3.map, V3.zip, V3.sub, V3.scale, V3.konst]

/-- C1 (counterexample): at `exR` the refit's error is not `≤` the first
fit's in any channel (the spec's degraded-fit condition holds), yet
`MeasureRawNLF` does not return normally: the `assert(all(newErr2 < err2))`
of line 1092 fails, aborting the process. -/
theorem C1_counterexample :
    rNotWorse exR = false ∧ MeasureRawNLF exR 1 = Except.error () := by
  refine ⟨exR_notWorse_false, ?_⟩
  simp [MeasureRawNLF, exR_strict_false]

/-- C1 (amended): when the refit is degraded, only `MeasureYCbCrNLF`
treats it as non-fatal — it records the degraded-fit warning of line 850
and returns normally; `MeasureRawNLF` instead fails its
`assert(all(newErr2 < err2))` and aborts whenever the refit is not
strictly better (which includes every degraded refit). -/
theorem C1_degraded_fit_behavior :
    (∀ (stats : List YStat) (m : ℚ), yAccept stats = false →
      (MeasureYCbCrNLF stats m).degradedWarning = true) ∧
    (∀ (stats : List RStat) (m : ℚ), rStrictlyBetter stats = false →
      MeasureRawNLF stats m = Except.error ()) := by
  constructor
  · intro stats m h
    simp [MeasureYCbCrNLF, h]
  · intro stats m h
    simp [MeasureRawNLF, h]

/-- C1 witness: the amended theorem applied at the concrete inputs `exY`
and `exR`. -/
theorem C1_witness :
    (yAccept exY = false ∧ (MeasureYCbCrNLF exY 1).degradedWarning = true) ∧
    (rStrictlyBetter exR = false ∧ MeasureRawNLF exR 1 = Except.error ()) :=
  ⟨⟨exY_accept_false, C1_degraded_fit_behavior.1 exY 1 exY_accept_false⟩,
   ⟨exR_strict_false, C1_degraded_fit_behavior.2 exR 1 exR_strict_false⟩⟩

/-- C2 (counterexample): the `1e-8` floor is applied before the exposure
scaling, so with exposure multiplier `1/1000` a component of the returned
`A` drops below `1e-8`. -/
theorem C2_counterexample :
    (MeasureYCbCrNLF ex2 (1 / 1000)).A.x0 < 1 / 100000000 := by
  rw [ex2_result]
  norm_num [V3.konst]

/-- C2 (amended): every component of the returned A and B of both
estimators is at least `1e-8 · exposureMultiplier²` (the `1e-8` floor is
applied to the fitted coefficients before the exposure scaling); in
particular at least `1e-8` whenever the multiplier has absolute value at
least 1. -/
theorem C2_floor_invariant :
    (∀ (stats : List YStat) (m : ℚ),
      (nlfFloor * (m * m) ≤ (MeasureYCbCrNLF stats m).A.x0 ∧
       nlfFloor * (m * m) ≤ (MeasureYCbCrNLF stats m).A.x1 ∧
       nlfFloor * (m * m) ≤ (MeasureYCbCrNLF stats m).A.x2) ∧
      (nlfFloor * (m * m) ≤ (MeasureYCbCrNLF stats m).B.x0 ∧
       nlfFloor * (m * m) ≤ (MeasureYCbCrNLF stats m).B.x1 ∧
       nlfFloor * (m * m) ≤ (MeasureYCbCrNLF stats m).B.x2)) ∧
    (∀ (stats : List RStat) (m : ℚ) (r : V4 ℚ × V4 ℚ),
      MeasureRawNLF stats m = Except.ok r →
      (nlfFloor * (m * m) ≤ r.1.x0 ∧ nlfFloor * (m * m) ≤ r.1.x1 ∧
       nlfFloor * (m * m) ≤ r.1.x2 ∧ nlfFloor * (m * m) ≤ r.1.x3) ∧
      (nlfFloor * (m * m) ≤ r.2.x0 ∧ nlfFloor * (m * m) ≤ r.2.x1 ∧
       nlfFloor * (m * m) ≤ r.2.x2 ∧ nlfFloor * (m * m) ≤ r.2.x3)) := by
  constructor
  · intro stats m
    by_cases h : yAccept stats
    · simp only [MeasureYCbCrNLF, h, if_true, V3.scale, V3.map]
      exact ⟨⟨floor_scale_le _ m (fit3_floorA _).1,
              floor_scale_le _ m (fit3_floorA _).2.1,
              floor_scale_le _ m (fit3_floorA _).2.2⟩,
             ⟨floor_scale_le _ m (fit3_floorB _).1,
              floor_scale_le _ m (fit3_floorB _).2.1,
              floor_scale_le _ m (fit3_floorB _).2.2⟩⟩
    · rw [Bool.not_eq_true] at h
      simp only [MeasureYCbCrNLF, h, Bool.false_eq_true, if_false, V3.scale, V3.map,
        yFirstFit]
      exact ⟨⟨floor_scale_le _ m (fit3_floorA _).1,
              floor_scale_le _ m (fit3_floorA _).2.1,
              floor_scale_le _ m (fit3_floorA _).2.2⟩,
             ⟨floor_scale_le _ m (fit3_floorB _).1,
              floor_scale_le _ m (fit3_floorB _).2.1,
              floor_scale_le _ m (fit3_floorB _).2.2⟩⟩
  · intro stats m r h
    by_cases hs : rStrictlyBetter stats
    · simp only [MeasureRawNLF, hs, if_true, Except.ok.injEq] at h
      subst h
      simp only [V4.scale, V4.map]
      exact ⟨⟨floor_scale_le _ m (fit4_floorA _).1,
              floor_scale_le _ m (fit4_floorA _).2.1,
              floor_scale_le _ m (fit4_floorA _).2.2.1,
              floor_scale_le _ m (fit4_floorA _).2.2.2⟩,
             ⟨floor_scale_le _ m (fit4_floorB _).1,
              floor_scale_le _ m (fit4_floorB _).2.1,
              floor_scale_le _ m (fit4_floorB _).2.2.1,
              floor_scale_le _ m (fit4_floorB _).2.2.2⟩⟩
    · rw [Bool.not_eq_true] at hs
      simp [MeasureRawNLF, hs] at h

/-- C2 witness: the raw conjunct of the amended theorem applied at the
concrete input `exROk` with multiplier 1. -/
theorem C2_witness :
    MeasureRawNLF exROk 1 = Except.ok (V4.konst (1 / 12000), V4.konst (17 / 30000)) ∧
    (nlfFloor * (1 * 1) ≤ (V4.konst (1 / 12000), V4.konst ((17 : ℚ) / 30000)).1.x0 ∧
     nlfFloor * (1 * 1) ≤ (V4.konst (1 / 12000), V4.konst ((17 : ℚ) / 30000)).1.x1 ∧
     nlfFloor * (1 * 1) ≤ (V4.konst (1 / 12000), V4.konst ((17 : ℚ) / 30000)).1.x2 ∧
     nlfFloor * (1 * 1) ≤ (V4.konst (1 / 12000), V4.konst ((17 : ℚ) / 30000)).1.x3) ∧
    (nlfFloor * (1 * 1) ≤ (V4.konst ((1 : ℚ) / 12000), V4.konst (17 / 30000)).2.x0 ∧
     nlfFloor * (1 * 1) ≤ (V4.konst ((1 : ℚ) / 12000), V4.konst (17 / 30000)).2.x1 ∧
     nlfFloor * (1 * 1) ≤ (V4.konst ((1 : ℚ) / 12000), V4.konst (17 / 30000)).2.x2 ∧
     nlfFloor * (1 * 1) ≤ (V4.konst ((1 : ℚ) / 12000), V4.konst (17 / 30000)).2.x3) :=
  ⟨exROk_result,
   (C2_floor_invariant.2 exROk 1 _ exROk_result).1,
   (C2_floor_invariant.2 exROk 1 _ exROk_result).2⟩

/-- C9: whenever the refit's mean squared error fails `all(newErr2 <=
err2)` (it is larger in some channel, or NaN), `MeasureYCbCrNLF` returns
the first fit's (A, B) scaled by `exposureMultiplier²` with the degraded
warning, never the second fit's; `MeasureRawNLF`, in contrast, always
returns the second fit's parameters when it returns at all. -/
theorem C9_first_fit_kept_on_degraded :
    (∀ (stats : List YStat) (m : ℚ), yAccept stats = false →
      MeasureYCbCrNLF stats m =
        ⟨V3.scale (m * m) (yFirstFit stats).1, V3.scale (m * m) (yFirstFit stats).2,
         true⟩) ∧
    (∀ (stats : List RStat) (m : ℚ) (r : V4 ℚ × V4 ℚ),
      MeasureRawNLF stats m = Except.ok r →
      r = (V4.scale (m * m) (fit4 (rSecondPass stats).1).1,
           V4.scale (m * m) (fit4 (rSecondPass stats).1).2)) := by
  constructor
  · intro stats m h
    simp [MeasureYCbCrNLF, h]
  · intro stats m r h
    by_cases hs : rStrictlyBetter stats
    · simp only [MeasureRawNLF, hs, if_true, Except.ok.injEq] at h
      exact h.symm
    · rw [Bool.not_eq_true] at hs
      simp [MeasureRawNLF, hs] at h

/-- C9 witness: the theorem applied at the concrete inputs `exY` (degraded
refit, first fit kept) and `exROk` (accepted refit, second fit returned). -/
theorem C9_witness :
    (yAccept exY = false ∧
      MeasureYCbCrNLF exY 1 =
        ⟨V3.scale (1 * 1) (yFirstFit exY).1, V3.scale (1 * 1) (yFirstFit exY).2,
         true⟩) ∧
    (MeasureRawNLF exROk 1 = Except.ok (V4.konst (1 / 12000), V4.konst (17 / 30000)) ∧
      (V4.konst ((1 : ℚ) / 12000), V4.konst ((17 : ℚ) / 30000)) =
        (V4.scale (1 * 1) (fit4 (rSecondPass exROk).1).1,
         V4.scale (1 * 1) (fit4 (rSecondPass exROk).1).2)) :=
  ⟨⟨exY_accept_false, C9_first_fit_kept_on_degraded.1 exY 1 exY_accept_false⟩,
   ⟨exROk_result, C9_first_fit_kept_on_degraded.2 exROk 1 _ exROk_result⟩⟩

end GlassPipeline
